import Mathlib

/-!
The scenario selection window (`src/openrct2-ui/windows/ScenarioSelect.cpp`).

A shallow embedding of the list building, tab initialisation and mouse handling of
`ScenarioSelectWindow`, followed by theorems about them.

Modelling conventions

* A `const ScenarioIndexEntry*` is only ever read through; it is modelled by the entry it
  points to, and `nullptr` by `none`.  The scenario repository is the list of its entries in
  index order (`ScenarioRepositoryGetCount` / `ScenarioRepositoryGetByIndex`).
* `int32_t` / `int16_t` values are `Int`, `uint8_t` / `uint16_t` fields are `Nat`.  The
  `uint32_t` completion mask and the `size_t` list index are reduced modulo `2 ^ 32` and
  `2 ^ 64` where the source stores them.  Signed arithmetic is exact: signed overflow and
  shifts by 32 or more are undefined in the source and lie outside the model.
* Constants, tables and enumerators that live in headers outside the source file are the
  fields of `Consts`.
* Sound and invalidation are not modelled; the drawing calls that depend on the scenario
  data are recorded as `DrawOp` values.
-/

namespace ScenarioSelect

/-- A `StringId` is a 16 bit string table index. -/
abbrev StringId := Nat

/-- The `ScenarioHighscoreEntry` fields read by the window. -/
structure ScenarioHighscoreEntry where
  name : String
  company_value : Int
  deriving DecidableEq, Repr

/-- The `ScenarioIndexEntry` fields read by the list building and mouse handling code. -/
structure ScenarioIndexEntry where
  Path : String
  Name : String
  Category : Nat
  SourceGame : Nat
  ScenarioId : Nat
  Highscore : Option ScenarioHighscoreEntry
  deriving DecidableEq, Repr

/-- The item `struct ScenarioListItem`: a tagged union of a heading and a scenario row. -/
inductive ScenarioListItem where
  | Heading (string_id : StringId)
  | Scenario (scenario : ScenarioIndexEntry) (is_locked : Bool)
  deriving DecidableEq, Repr

/-- Constants, enumerators and tables declared outside `ScenarioSelect.cpp`. -/
structure Consts where
  SCENARIO_SELECT_MODE_ORIGIN : Nat
  SCENARIO_CATEGORY_EXPERT : Nat
  SCENARIO_CATEGORY_REAL : Nat
  SCENARIO_CATEGORY_OTHER : Nat
  ScenarioSource_Real : Nat
  SC_MEGA_PARK : Nat
  STR_NONE : StringId
  STR_SCENARIO_CATEGORY_RCT1 : StringId
  STR_SCENARIO_CATEGORY_RCT1_AA : StringId
  STR_SCENARIO_CATEGORY_RCT1_LL : StringId
  STR_SCENARIO_CATEGORY_RCT2 : StringId
  STR_SCENARIO_CATEGORY_RCT2_WW : StringId
  STR_SCENARIO_CATEGORY_RCT2_TT : StringId
  STR_SCENARIO_CATEGORY_UCES : StringId
  STR_SCENARIO_CATEGORY_REAL_PARKS : StringId
  STR_SCENARIO_CATEGORY_EXTRAS_PARKS : StringId
  STR_SCENARIO_CATEGORY_OTHER_PARKS : StringId
  ScenarioCategoryStringIds : Nat → StringId

/-- The settings of `gConfigGeneral` and `gConfigInterface` used by the window. -/
structure Config where
  ScenarioSelectMode : Nat
  ScenarioUnlockingEnabled : Bool
  ScenarioHideMegaPark : Bool
  ScenarioselectLastTab : Int
  deriving DecidableEq, Repr

/-- The member variables of `ScenarioSelectWindow` together with `selected_tab`. -/
structure ScenarioSelectWindow where
  _showLockedInformation : Bool
  _listItems : List ScenarioListItem
  _highlightedScenario : Option ScenarioIndexEntry
  selected_tab : Int
  deriving DecidableEq, Repr

def InitialNumUnlockedScenarios : Int := 5

def TabHeight : Int := 34

def WidgetsStart : Int := 17

def TabsStart : Int := WidgetsStart

def NumTabs : Nat := 10

def WIDX_TAB1 : Nat := 4

def WIDX_TAB10 : Nat := 13

/-- The table `kScenarioOriginStringIds`; reading past its ten entries (undefined in the
source) yields `STR_NONE` here. -/
def kScenarioOriginStringIds (K : Consts) (i : Nat) : StringId :=
  [K.STR_SCENARIO_CATEGORY_RCT1, K.STR_SCENARIO_CATEGORY_RCT1_AA, K.STR_SCENARIO_CATEGORY_RCT1_LL,
   K.STR_SCENARIO_CATEGORY_RCT2, K.STR_SCENARIO_CATEGORY_RCT2_WW, K.STR_SCENARIO_CATEGORY_RCT2_TT,
   K.STR_SCENARIO_CATEGORY_UCES, K.STR_SCENARIO_CATEGORY_REAL_PARKS,
   K.STR_SCENARIO_CATEGORY_EXTRAS_PARKS, K.STR_SCENARIO_CATEGORY_OTHER_PARKS].getD i K.STR_NONE

/-! ## Building the list of rows -/

/-- The method `IsScenarioVisible`: does the scenario belong to the selected tab. -/
def IsScenarioVisible (K : Consts) (cfg : Config) (selected_tab : Int)
    (scenario : ScenarioIndexEntry) : Bool :=
  if cfg.ScenarioSelectMode = K.SCENARIO_SELECT_MODE_ORIGIN then
    if (scenario.SourceGame : Int) ≠ selected_tab then false else true
  else
    let category : Nat := scenario.Category
    let category := if category > K.SCENARIO_CATEGORY_OTHER then K.SCENARIO_CATEGORY_OTHER else category
    if (category : Int) ≠ selected_tab then false else true

/-- The method `IsLockingEnabled`. -/
def IsLockingEnabled (K : Consts) (cfg : Config) (selected_tab : Int) : Bool :=
  if cfg.ScenarioSelectMode ≠ K.SCENARIO_SELECT_MODE_ORIGIN then false
  else if cfg.ScenarioUnlockingEnabled = false then false
  else if selected_tab ≥ 6 then false
  else true

/-- The local variables of `InitialiseListItems` that live across loop iterations, together
with the `_listItems` member being rebuilt. -/
structure InitialiseListItems.Locals where
  _listItems : List ScenarioListItem
  rct1CompletedScenarios : Nat
  megaParkListItemIndex : Option Nat
  numUnlocks : Int
  currentHeading : Nat
  deriving DecidableEq, Repr

/-- The values of the locals before the loop (`currentHeading = UINT8_MAX`). -/
def InitialiseListItems.init : InitialiseListItems.Locals :=
  { _listItems := [], rct1CompletedScenarios := 0, megaParkListItemIndex := none,
    numUnlocks := InitialNumUnlockedScenarios, currentHeading := 255 }

/-- The "Category heading" block of the loop body: the new `currentHeading` and the
`headingStringId` chosen for a visible scenario. -/
def InitialiseListItems.heading (K : Consts) (cfg : Config) (selected_tab : Int)
    (currentHeading : Nat) (scenario : ScenarioIndexEntry) : Nat × StringId :=
  if cfg.ScenarioSelectMode = K.SCENARIO_SELECT_MODE_ORIGIN then
    if selected_tab ≠ (K.ScenarioSource_Real : Int) ∧ currentHeading ≠ scenario.Category then
      (scenario.Category, K.ScenarioCategoryStringIds scenario.Category)
    else (currentHeading, K.STR_NONE)
  else
    if selected_tab ≤ (K.SCENARIO_CATEGORY_EXPERT : Int) then
      if currentHeading ≠ scenario.SourceGame then
        (scenario.SourceGame, kScenarioOriginStringIds K scenario.SourceGame)
      else (currentHeading, K.STR_NONE)
    else if selected_tab = (K.SCENARIO_CATEGORY_OTHER : Int) then
      let category : Nat := scenario.Category
      let category := if category ≤ K.SCENARIO_CATEGORY_REAL then K.SCENARIO_CATEGORY_OTHER else category
      if currentHeading ≠ category then
        (category % 256, K.ScenarioCategoryStringIds category)
      else (currentHeading, K.STR_NONE)
    else (currentHeading, K.STR_NONE)

/-- One iteration of the loop of `InitialiseListItems`, for the repository entry `scenario`. -/
def InitialiseListItems.body (K : Consts) (cfg : Config) (selected_tab : Int)
    (st : InitialiseListItems.Locals) (scenario : ScenarioIndexEntry) :
    InitialiseListItems.Locals :=
  if IsScenarioVisible K cfg selected_tab scenario = false then st
  else
    let hd := InitialiseListItems.heading K cfg selected_tab st.currentHeading scenario
    let items :=
      if hd.2 ≠ K.STR_NONE then st._listItems ++ [ScenarioListItem.Heading hd.2] else st._listItems
    if IsLockingEnabled K cfg selected_tab then
      let is_locked := decide (st.numUnlocks ≤ 0)
      let numUnlocks := if scenario.Highscore.isNone then st.numUnlocks - 1 else st.numUnlocks
      let rct1 :=
        if scenario.Highscore.isSome ∧ scenario.ScenarioId < K.SC_MEGA_PARK then
          (st.rct1CompletedScenarios ||| (1 <<< scenario.ScenarioId)) % 2 ^ 32
        else st.rct1CompletedScenarios
      let mega :=
        if scenario.ScenarioId = K.SC_MEGA_PARK then some ((items.length + 2 ^ 64 - 1) % 2 ^ 64)
        else st.megaParkListItemIndex
      { _listItems := items ++ [ScenarioListItem.Scenario scenario is_locked],
        rct1CompletedScenarios := rct1, megaParkListItemIndex := mega,
        numUnlocks := numUnlocks, currentHeading := hd.1 }
    else
      { st with _listItems := items ++ [ScenarioListItem.Scenario scenario false],
                currentHeading := hd.1 }

/-- The loop of `InitialiseListItems` over the whole repository. -/
def InitialiseListItems.loop (K : Consts) (cfg : Config) (selected_tab : Int)
    (repo : List ScenarioIndexEntry) : InitialiseListItems.Locals :=
  repo.foldl (InitialiseListItems.body K cfg selected_tab) InitialiseListItems.init

/-- The store `_listItems[index].scenario.is_locked = b`.  On a heading item the store goes
to the scenario member of the union and leaves `type` and `heading.string_id` as they are.  An
index past the end (undefined in the source) leaves the list as it is. -/
def setIsLocked (b : Bool) : List ScenarioListItem → Nat → List ScenarioListItem
  | [], _ => []
  | .Heading string_id :: rest, 0 => .Heading string_id :: rest
  | .Scenario scenario _ :: rest, 0 => .Scenario scenario b :: rest
  | item :: rest, n + 1 => item :: setIsLocked b rest n

/-- The "Remove empty headings" loop: a heading is erased when it is the last item or the
next item is a heading, and the iteration goes on with the item that followed it. -/
def removeEmptyHeadings : List ScenarioListItem → List ScenarioListItem
  | [] => []
  | .Scenario scenario is_locked :: rest => .Scenario scenario is_locked :: removeEmptyHeadings rest
  | .Heading string_id :: rest =>
    match rest with
    | [] => removeEmptyHeadings rest
    | .Heading _ :: _ => removeEmptyHeadings rest
    | .Scenario _ _ :: _ => .Heading string_id :: removeEmptyHeadings rest

/-- The constant `rct1RequiredCompletedScenarios`, stored as `uint32_t`. -/
def rct1RequiredCompletedScenarios (K : Consts) : Nat := ((1 <<< K.SC_MEGA_PARK) - 1) % 2 ^ 32

/-- The "Mega park handling" block that follows the loop. -/
def InitialiseListItems.megaPark (K : Consts) (cfg : Config)
    (st : InitialiseListItems.Locals) : List ScenarioListItem :=
  match st.megaParkListItemIndex with
  | none => st._listItems
  | some index =>
    let megaParkLocked : Bool :=
      decide ((st.rct1CompletedScenarios &&& rct1RequiredCompletedScenarios K)
        ≠ rct1RequiredCompletedScenarios K)
    let items := setIsLocked megaParkLocked st._listItems index
    if megaParkLocked ∧ cfg.ScenarioHideMegaPark then removeEmptyHeadings items.dropLast
    else items

/-- The method `InitialiseListItems`: rebuild `_listItems` for the selected tab. -/
def InitialiseListItems (K : Consts) (cfg : Config) (repo : List ScenarioIndexEntry)
    (w : ScenarioSelectWindow) : ScenarioSelectWindow :=
  { w with _listItems :=
      InitialiseListItems.megaPark K cfg (InitialiseListItems.loop K cfg w.selected_tab repo) }

/-- The handler `OnMouseDown`: the configuration and the window after a press on the widget. -/
def OnMouseDown (K : Consts) (repo : List ScenarioIndexEntry) (cfg : Config)
    (w : ScenarioSelectWindow) (widgetIndex : Int) : Config × ScenarioSelectWindow :=
  if widgetIndex ≥ (WIDX_TAB1 : Int) ∧ widgetIndex ≤ (WIDX_TAB10 : Int) then
    let w := { w with selected_tab := widgetIndex - 4 }
    let w := { w with _highlightedScenario := none }
    let cfg := { cfg with ScenarioselectLastTab := w.selected_tab }
    (cfg, InitialiseListItems K cfg repo w)
  else (cfg, w)

/-! ## Tabs -/

/-- The widget types of `WindowWidgetType` that occur in the widget table of the window. -/
inductive WindowWidgetType where
  | Empty | Frame | Resize | Caption | CloseBox | Scroll | Tab
  deriving DecidableEq, Repr

/-- The `Widget` fields written by `InitTabs`. -/
structure Widget where
  type : WindowWidgetType
  top : Int
  bottom : Int
  deriving DecidableEq, Repr

/-- The first loop of `InitTabs`: the bit set `showPages` of the tabs that have a scenario. -/
def InitTabs.showPages (K : Consts) (cfg : Config) (repo : List ScenarioIndexEntry) : Nat :=
  repo.foldl
    (fun showPages scenario =>
      if cfg.ScenarioSelectMode = K.SCENARIO_SELECT_MODE_ORIGIN then
        showPages ||| (1 <<< scenario.SourceGame)
      else
        let category : Nat := scenario.Category
        let category :=
          if category > K.SCENARIO_CATEGORY_OTHER then K.SCENARIO_CATEGORY_OTHER else category
        showPages ||| (1 <<< category))
    0

/-- Modelled from the spec: `UtilBitScanForward` is defined in `util/Util.cpp`, which is not
part of the source file; it yields the index of the lowest set bit of a 32 bit value and -1
when no bit is set. -/
def UtilBitScanForward (source : Nat) : Int :=
  match (List.range 32).find? (fun i => source.testBit i) with
  | some i => (i : Int)
  | none => -1

/-- The choice of `selected_tab` in `InitTabs`.  A negative last tab (an undefined shift in
the source) selects no bit here. -/
def InitTabs.selectTab (cfg : Config) (showPages : Nat) (selected_tab : Int) : Int :=
  if 0 ≤ cfg.ScenarioselectLastTab ∧
      showPages &&& (1 <<< cfg.ScenarioselectLastTab.toNat) ≠ 0 then
    cfg.ScenarioselectLastTab
  else
    let firstPage := UtilBitScanForward showPages
    if firstPage ≠ -1 then firstPage else selected_tab

/-- One iteration of the layout loop of `InitTabs`, carrying the widget array and `y`. -/
def InitTabs.layoutStep (showPages : Nat) (st : (Nat → Widget) × Int) (i : Nat) :
    (Nat → Widget) × Int :=
  if showPages &&& (1 <<< i) = 0 then
    (fun j => if j = i + WIDX_TAB1 then { st.1 j with type := WindowWidgetType.Empty } else st.1 j,
     st.2)
  else
    (fun j =>
      if j = i + WIDX_TAB1 then
        { type := WindowWidgetType.Tab, top := st.2, bottom := st.2 + (TabHeight - 1) }
      else st.1 j,
     st.2 + TabHeight)

/-- The method `InitTabs`: the window and the widget array after it ran. -/
def InitTabs (K : Consts) (cfg : Config) (repo : List ScenarioIndexEntry)
    (w : ScenarioSelectWindow) (widgets : Nat → Widget) : ScenarioSelectWindow × (Nat → Widget) :=
  let showPages := InitTabs.showPages K cfg repo
  let w := { w with selected_tab := InitTabs.selectTab cfg showPages w.selected_tab }
  (w, ((List.range NumTabs).foldl (InitTabs.layoutStep showPages) (widgets, TabsStart)).1)

/-! ## Scrolling: size, hover and click -/

/-- The loop of `OnScrollGetSize`: the height of the whole list. -/
def OnScrollGetSize (scenarioItemHeight : Int) : List ScenarioListItem → Int
  | [] => 0
  | .Heading _ :: rest => 18 + OnScrollGetSize scenarioItemHeight rest
  | .Scenario _ _ :: rest => scenarioItemHeight + OnScrollGetSize scenarioItemHeight rest

/-- The loop of `OnScrollMouseDown` from a given item on, `y` being `mutableScreenCoords.y`.
The result is the sequence of arguments `_callback` is invoked with. -/
def OnScrollMouseDown.loop (scenarioItemHeight : Int) : List ScenarioListItem → Int → List String
  | [], _ => []
  | .Heading _ :: rest, y =>
    let y := y - 18
    if y < 0 then [] else OnScrollMouseDown.loop scenarioItemHeight rest y
  | .Scenario scenario is_locked :: rest, y =>
    let y := y - scenarioItemHeight
    if y < 0 ∧ is_locked = false then [scenario.Path]
    else if y < 0 then [] else OnScrollMouseDown.loop scenarioItemHeight rest y

/-- The handler `OnScrollMouseDown`: the callback invocations caused by a click at `y`. -/
def OnScrollMouseDown (w : ScenarioSelectWindow) (scenarioItemHeight : Int) (y : Int) :
    List String :=
  OnScrollMouseDown.loop scenarioItemHeight w._listItems y

/-- The loop of `OnScrollMouseOver`, carrying `(_showLockedInformation, selected)`. -/
def OnScrollMouseOver.loop (scenarioItemHeight : Int) :
    List ScenarioListItem → Int → Bool × Option ScenarioIndexEntry →
    Bool × Option ScenarioIndexEntry
  | [], _, acc => acc
  | .Heading _ :: rest, y, acc =>
    let y := y - 18
    if y < 0 then acc else OnScrollMouseOver.loop scenarioItemHeight rest y acc
  | .Scenario scenario is_locked :: rest, y, acc =>
    let y := y - scenarioItemHeight
    let acc := if y < 0 then (if is_locked then (true, acc.2) else (acc.1, some scenario)) else acc
    if y < 0 then acc else OnScrollMouseOver.loop scenarioItemHeight rest y acc

/-- The handler `OnScrollMouseOver`: the window after the cursor moved to `y`. -/
def OnScrollMouseOver (w : ScenarioSelectWindow) (scenarioItemHeight : Int) (y : Int) :
    ScenarioSelectWindow :=
  let r := OnScrollMouseOver.loop scenarioItemHeight w._listItems y (false, none)
  let w := { w with _showLockedInformation := r.1 }
  if w._highlightedScenario ≠ r.2 then { w with _highlightedScenario := r.2 } else w

/-! ### The row under a coordinate, as the specification words it -/

/-- The height of one row: 18 for a heading, the scenario row height for a scenario. -/
def rowHeight (scenarioItemHeight : Int) : ScenarioListItem → Int
  | .Heading _ => 18
  | .Scenario _ _ => scenarioItemHeight

/-- The accumulated bottom edge of row `k`: the heights of rows `0 .. k` added up. -/
def bottomEdge (scenarioItemHeight : Int) (items : List ScenarioListItem) (k : Nat) : Int :=
  ((items.take (k + 1)).map (rowHeight scenarioItemHeight)).sum

/-- The index of the first row whose accumulated bottom edge is greater than `y`. -/
def hitIndex (scenarioItemHeight : Int) (items : List ScenarioListItem) (y : Int) : Option Nat :=
  (List.range items.length).find? (fun k => decide (y < bottomEdge scenarioItemHeight items k))

/-- The hit row: the first row whose accumulated bottom edge is greater than `y`, if any. -/
def hitRow (scenarioItemHeight : Int) (items : List ScenarioListItem) (y : Int) :
    Option ScenarioListItem :=
  (hitIndex scenarioItemHeight items y).bind (fun k => items.get? k)

/-! ## Drawing -/

/-- The calls `OnDraw` (side panel) and `OnScrollDraw` (list) make into the drawing interface,
with the arguments that depend on the scenario data.  The tab captions, the scenario details
and the objective text are drawn from other data and are left out. -/
inductive DrawOp where
  | LockedInformation
  | HoverHint
  | ScenarioPath (path : String)
  | ScenarioName (name : String)
  | CompletedByWithCompanyValue (completedByName : String) (company_value : Int)
  | CategoryHeading (y : Int) (string_id : StringId)
  | HoverHighlight (y : Int)
  | ListScenarioName (y : Int) (name : String) (isDisabled : Bool) (isHighlighted : Bool)
  | CompletionTick (y : Int)
  | CompletedBy (y : Int) (completedByName : String)
  deriving DecidableEq, Repr

/-- The side panel part of `OnDraw`, from "Return if no scenario highlighted" on. -/
def OnDraw (w : ScenarioSelectWindow) (DebuggingTools : Bool) : List DrawOp :=
  match w._highlightedScenario with
  | none => if w._showLockedInformation then [DrawOp.LockedInformation] else [DrawOp.HoverHint]
  | some scenario =>
    (if DebuggingTools then [DrawOp.ScenarioPath scenario.Path] else [])
      ++ [DrawOp.ScenarioName scenario.Name]
      ++ (match scenario.Highscore with
          | none => []
          | some highscore =>
            let completedByName : String :=
              if highscore.name.isEmpty = false then highscore.name else "???"
            [DrawOp.CompletedByWithCompanyValue completedByName highscore.company_value])

/-- The loop of `OnScrollDraw` from a given item on: for each item the calls made for it, none
when the item lies below the clip rectangle (`y > dpi.y + dpi.height`). -/
def OnScrollDraw.loop (highlighted : Option ScenarioIndexEntry) (dpi_y dpi_height : Int)
    (scenarioItemHeight scenarioTitleHeight : Int) :
    List ScenarioListItem → Int → List (List DrawOp)
  | [], _ => []
  | .Heading string_id :: rest, y =>
    if y > dpi_y + dpi_height then
      [] :: OnScrollDraw.loop highlighted dpi_y dpi_height scenarioItemHeight scenarioTitleHeight
        rest y
    else
      [DrawOp.CategoryHeading (y + 2) string_id]
        :: OnScrollDraw.loop highlighted dpi_y dpi_height scenarioItemHeight scenarioTitleHeight
          rest (y + 18)
  | .Scenario scenario is_locked :: rest, y =>
    if y > dpi_y + dpi_height then
      [] :: OnScrollDraw.loop highlighted dpi_y dpi_height scenarioItemHeight scenarioTitleHeight
        rest y
    else
      let isHighlighted : Bool := decide (highlighted = some scenario)
      let isDisabled : Bool := is_locked
      ((if isHighlighted then [DrawOp.HoverHighlight y] else [])
        ++ [DrawOp.ListScenarioName (y + 1) scenario.Name isDisabled isHighlighted]
        ++ (match scenario.Highscore with
            | none => []
            | some highscore =>
              let completedByName : String :=
                if highscore.name.isEmpty = false then highscore.name else "???"
              [DrawOp.CompletionTick (y + 1),
               DrawOp.CompletedBy (y + scenarioTitleHeight + 1) completedByName]))
        :: OnScrollDraw.loop highlighted dpi_y dpi_height scenarioItemHeight scenarioTitleHeight
          rest (y + scenarioItemHeight)

/-- The handler `OnScrollDraw`: the calls made for each item of `_listItems`, in list order. -/
def OnScrollDraw (w : ScenarioSelectWindow) (dpi_y dpi_height : Int)
    (scenarioItemHeight scenarioTitleHeight : Int) : List (List DrawOp) :=
  OnScrollDraw.loop w._highlightedScenario dpi_y dpi_height scenarioItemHeight
    scenarioTitleHeight w._listItems 0

/-! ## Vocabulary of the statements -/

/-- The scenario a row points to, if it is a scenario row. -/
def scenarioOf : ScenarioListItem → Option ScenarioIndexEntry
  | .Heading _ => none
  | .Scenario scenario _ => some scenario

/-- The scenarios of the scenario rows of a list, in list order. -/
def scenarioRows (items : List ScenarioListItem) : List ScenarioIndexEntry :=
  items.filterMap scenarioOf

/-- Is the row a scenario row whose scenario has no highscore. -/
def hasNoHighscore : ScenarioListItem → Bool
  | .Heading _ => false
  | .Scenario scenario _ => scenario.Highscore.isNone

/-- The number of scenario rows of a list whose scenario has no highscore. -/
def noHighscoreCount (items : List ScenarioListItem) : Nat :=
  items.countP hasNoHighscore

/-- The tab a scenario belongs to: its `SourceGame` in origin mode, its `Category` clamped to
at most `SCENARIO_CATEGORY_OTHER` otherwise. -/
def tabOf (K : Consts) (cfg : Config) (scenario : ScenarioIndexEntry) : Nat :=
  if cfg.ScenarioSelectMode = K.SCENARIO_SELECT_MODE_ORIGIN then scenario.SourceGame
  else min scenario.Category K.SCENARIO_CATEGORY_OTHER

/-- The lock flag of every scenario row tells whether at least `InitialNumUnlockedScenarios`
scenario rows before it have no highscore. -/
def LockCounted (l : List ScenarioListItem) : Prop :=
  ∀ i scenario is_locked, l[i]? = some (ScenarioListItem.Scenario scenario is_locked) →
    (is_locked = true ↔ InitialNumUnlockedScenarios ≤ (noHighscoreCount (l.take i) : Int))

/-- The invariant of the loop behind the lock counting: no Mega Park reference was taken,
`numUnlocks` is the initial number less the rows without a highscore, and the rows built so
far are lock counted. -/
def LockInv (st : InitialiseListItems.Locals) : Prop :=
  st.megaParkListItemIndex = none ∧
  st.numUnlocks = InitialNumUnlockedScenarios - (noHighscoreCount st._listItems : Int) ∧
  LockCounted st._listItems

/-- Every heading row is immediately followed by a scenario row. -/
def HeadingsFollowed (l : List ScenarioListItem) : Prop :=
  ∀ i string_id, l[i]? = some (ScenarioListItem.Heading string_id) →
    ∃ scenario is_locked, l[i + 1]? = some (ScenarioListItem.Scenario scenario is_locked)

/-- Is the row a heading row. -/
def isHeading : ScenarioListItem → Bool
  | .Heading _ => true
  | .Scenario _ _ => false

/-- The completion mask holds exactly the scenario ids below `SC_MEGA_PARK` of the rows
built so far whose scenario has a highscore. -/
def MaskInv (K : Consts) (st : InitialiseListItems.Locals) : Prop :=
  ∀ j : Nat, st.rct1CompletedScenarios.testBit j = true ↔
    (j < K.SC_MEGA_PARK ∧
      ∃ s ∈ scenarioRows st._listItems, s.ScenarioId = j ∧ s.Highscore.isSome = true)

/-- The row with its lock flag cleared; headings are left as they are. -/
def eraseLock : ScenarioListItem → ScenarioListItem
  | .Heading string_id => .Heading string_id
  | .Scenario scenario _ => .Scenario scenario false

/-- A run of scenarios under one heading: the heading carries the string id of the key of the
run (the key of its first scenario), the scenario rows follow in order. -/
def headedRun (strId : Nat → StringId) (key : ScenarioIndexEntry → Nat) :
    List ScenarioIndexEntry → List ScenarioListItem
  | [] => []
  | scenario :: run =>
    .Heading (strId (key scenario))
      :: (scenario :: run).map (fun s => ScenarioListItem.Scenario s false)

/-- The rows the heading grouping is specified to give: the scenarios are split into the
maximal runs of consecutive scenarios with the same key, and each run is put under one
heading. -/
def headedRuns (strId : Nat → StringId) (key : ScenarioIndexEntry → Nat)
    (scenarios : List ScenarioIndexEntry) : List ScenarioListItem :=
  ((scenarios.splitBy (fun a b => key a == key b)).map (headedRun strId key)).flatten

/-- The rows the loop appends for a list of visible scenarios when `currentHeading` is
`cur` and a scenario gets a heading exactly when its key differs from `currentHeading`. -/
def appendedRows (strId : Nat → StringId) (key : ScenarioIndexEntry → Nat) :
    Nat → List ScenarioIndexEntry → List ScenarioListItem
  | _, [] => []
  | cur, scenario :: rest =>
    (if cur ≠ key scenario then [ScenarioListItem.Heading (strId (key scenario))] else [])
      ++ ScenarioListItem.Scenario scenario false :: appendedRows strId key (key scenario) rest

/-- The condition under which "Mega park handling" removes rows: a Mega Park reference was
taken, Mega Park is found locked and the hide setting is on. -/
def InitialiseListItems.removesMegaPark (K : Consts) (cfg : Config)
    (st : InitialiseListItems.Locals) : Bool :=
  match st.megaParkListItemIndex with
  | none => false
  | some _ =>
    decide ((st.rct1CompletedScenarios &&& rct1RequiredCompletedScenarios K)
      ≠ rct1RequiredCompletedScenarios K) && cfg.ScenarioHideMegaPark

/-- The name shown for a completed scenario, as specified: the name of the highscore when
it is not empty, "???" otherwise. -/
def completedByName (highscore : ScenarioHighscoreEntry) : String :=
  if highscore.name = "" then "???" else highscore.name

/-- The number of tabs before tab `i` that are of type `Tab` in a widget array. -/
def shownBefore (widgets : Nat → Widget) (i : Nat) : Nat :=
  ((List.range i).filter
    (fun j => decide ((widgets (j + WIDX_TAB1)).type = WindowWidgetType.Tab))).length

/-- The calls the list makes for a scenario row that is drawn with its top at `y`: the hover
highlight when the row's scenario is the highlighted one, the scenario name, and for a
scenario with a highscore the completion tick and the "completed by" line with the name to
show. -/
def rowCalls (highlighted : Option ScenarioIndexEntry) (scenarioTitleHeight y : Int)
    (scenario : ScenarioIndexEntry) (is_locked : Bool) : List DrawOp :=
  (if highlighted = some scenario then [DrawOp.HoverHighlight y] else [])
    ++ [DrawOp.ListScenarioName (y + 1) scenario.Name is_locked
          (decide (highlighted = some scenario))]
    ++ (match scenario.Highscore with
        | none => []
        | some highscore =>
          [DrawOp.CompletionTick (y + 1),
           DrawOp.CompletedBy (y + scenarioTitleHeight + 1) (completedByName highscore)])

/-! ## Sample data -/

/-- The values the constants have in the headers of the game; the string ids are
placeholders that differ from each other and from `STR_NONE`. -/
def sampleConsts : Consts :=
  { SCENARIO_SELECT_MODE_ORIGIN := 1
    SCENARIO_CATEGORY_EXPERT := 2
    SCENARIO_CATEGORY_REAL := 3
    SCENARIO_CATEGORY_OTHER := 4
    ScenarioSource_Real := 7
    SC_MEGA_PARK := 21
    STR_NONE := 65535
    STR_SCENARIO_CATEGORY_RCT1 := 200
    STR_SCENARIO_CATEGORY_RCT1_AA := 201
    STR_SCENARIO_CATEGORY_RCT1_LL := 202
    STR_SCENARIO_CATEGORY_RCT2 := 203
    STR_SCENARIO_CATEGORY_RCT2_WW := 204
    STR_SCENARIO_CATEGORY_RCT2_TT := 205
    STR_SCENARIO_CATEGORY_UCES := 206
    STR_SCENARIO_CATEGORY_REAL_PARKS := 207
    STR_SCENARIO_CATEGORY_EXTRAS_PARKS := 208
    STR_SCENARIO_CATEGORY_OTHER_PARKS := 209
    ScenarioCategoryStringIds := fun c => 100 + c }

/-- A sample configuration: origin mode, unlocking enabled, Mega Park not hidden. -/
def sampleConfig : Config :=
  { ScenarioSelectMode := 1, ScenarioUnlockingEnabled := true, ScenarioHideMegaPark := false,
    ScenarioselectLastTab := 0 }

/-- The sample configuration with the hide-Mega-Park setting on. -/
def sampleConfigHide : Config := { sampleConfig with ScenarioHideMegaPark := true }

/-- The sample configuration with unlocking disabled. -/
def sampleConfigNoLock : Config := { sampleConfig with ScenarioUnlockingEnabled := false }

/-- A completed RCT1 beginner scenario ("Forest Frontiers", scenario id 0). -/
def forestFrontiers : ScenarioIndexEntry :=
  { Path := "ff.sc4", Name := "Forest Frontiers", Category := 0, SourceGame := 0, ScenarioId := 0,
    Highscore := some { name := "ted", company_value := 10000 } }

/-- An RCT1 beginner scenario without a highscore ("Dynamite Dunes", scenario id 1). -/
def dynamiteDunes : ScenarioIndexEntry :=
  { Path := "dd.sc4", Name := "Dynamite Dunes", Category := 0, SourceGame := 0, ScenarioId := 1,
    Highscore := none }

/-- Mega Park (scenario id 21) without a highscore, in a category of its own as in the
scenario tables of the game, so that a heading precedes it. -/
def megaPark : ScenarioIndexEntry :=
  { Path := "mp.sc4", Name := "Mega Park", Category := 4, SourceGame := 0, ScenarioId := 21,
    Highscore := none }

/-- Mega Park filed under the category of its neighbours, so that no heading precedes it. -/
def megaParkUngrouped : ScenarioIndexEntry := { megaPark with Category := 0 }

/-- An RCT2 scenario, shown on another tab than the three above. -/
def crazyCastle : ScenarioIndexEntry :=
  { Path := "cc.sc6", Name := "Crazy Castle", Category := 0, SourceGame := 3, ScenarioId := 255,
    Highscore := none }

/-- A sample list of rows: a heading, an unlocked row and a locked row. -/
def sampleItems : List ScenarioListItem :=
  [.Heading 100, .Scenario forestFrontiers false, .Scenario dynamiteDunes true]

/-- A window on tab 0 showing the sample rows. -/
def sampleWindow : ScenarioSelectWindow :=
  { _showLockedInformation := false, _listItems := sampleItems, _highlightedScenario := none,
    selected_tab := 0 }

/-- The sample configuration in category (difficulty) mode. -/
def sampleConfigCategory : Config := { sampleConfig with ScenarioSelectMode := 0 }

/-- A scenario whose category byte is 255, the initial value of `currentHeading`. -/
def strayCategory : ScenarioIndexEntry :=
  { Path := "stray.sc6", Name := "Stray", Category := 255, SourceGame := 0, ScenarioId := 255,
    Highscore := none }

/-- A completed scenario whose highscore carries no name. -/
def namelessHighscore : ScenarioIndexEntry :=
  { Path := "ll.sc4", Name := "Leafy Lake", Category := 0, SourceGame := 0, ScenarioId := 2,
    Highscore := some { name := "", company_value := 20000 } }

/-- A static widget table in which every widget is a tab at the top of the window. -/
def sampleWidgets : Nat → Widget :=
  fun _ => { type := WindowWidgetType.Tab, top := 0, bottom := 0 }

/-- A window on tab 4, the "Other" tab of category mode. -/
def sampleWindowOther : ScenarioSelectWindow := { sampleWindow with selected_tab := 4 }

/-! ## Lemmas on the row under a coordinate -/

theorem bottomEdge_cons_zero (h : Int) (a : ScenarioListItem) (l : List ScenarioListItem) :
    bottomEdge h (a :: l) 0 = rowHeight h a := by
  simp [bottomEdge]

theorem bottomEdge_cons_succ (h : Int) (a : ScenarioListItem) (l : List ScenarioListItem)
    (k : Nat) : bottomEdge h (a :: l) (k + 1) = rowHeight h a + bottomEdge h l k := by
  simp [bottomEdge]

theorem hitIndex_nil (h y : Int) : hitIndex h [] y = none := by
  simp [hitIndex]

theorem hitIndex_cons (h y : Int) (a : ScenarioListItem) (l : List ScenarioListItem) :
    hitIndex h (a :: l) y =
      if y < rowHeight h a then some 0
      else (hitIndex h l (y - rowHeight h a)).map (fun k => k + 1) := by
  unfold hitIndex
  rw [List.length_cons, List.range_succ_eq_map, List.find?_cons]
  by_cases hy : y < rowHeight h a
  · simp [bottomEdge_cons_zero, hy]
  · simp only [bottomEdge_cons_zero, hy, decide_False, if_false, List.find?_map]
    have hp : ((fun k => decide (y < bottomEdge h (a :: l) k)) ∘ Nat.succ)
        = fun k => decide (y - rowHeight h a < bottomEdge h l k) := by
      funext k
      simp only [Function.comp, Nat.succ_eq_add_one, bottomEdge_cons_succ]
      apply decide_eq_decide.2
      constructor <;> intro hk <;> omega
    rw [hp]

theorem hitRow_nil (h y : Int) : hitRow h [] y = none := by
  simp [hitRow, hitIndex_nil]

theorem hitRow_cons (h y : Int) (a : ScenarioListItem) (l : List ScenarioListItem) :
    hitRow h (a :: l) y =
      if y < rowHeight h a then some a else hitRow h l (y - rowHeight h a) := by
  unfold hitRow
  rw [hitIndex_cons]
  by_cases hy : y < rowHeight h a
  · simp [hy]
  · simp only [hy, if_false]
    cases hitIndex h l (y - rowHeight h a) <;> simp

theorem OnScrollGetSize_eq_sum (h : Int) (l : List ScenarioListItem) :
    OnScrollGetSize h l = (l.map (rowHeight h)).sum := by
  induction l with
  | nil => rfl
  | cons a l ih => cases a <;> simp [OnScrollGetSize, rowHeight, ih]

theorem hitRow_none_of_size_le (h : Int) (hpos : 0 < h) (l : List ScenarioListItem) :
    ∀ y : Int, OnScrollGetSize h l ≤ y → hitRow h l y = none := by
  induction l with
  | nil => intro y _; exact hitRow_nil h y
  | cons a l ih =>
    intro y hy
    have hnn : 0 ≤ OnScrollGetSize h l := by
      rw [OnScrollGetSize_eq_sum]
      apply List.sum_nonneg
      intro x hx
      obtain ⟨b, _, rfl⟩ := List.mem_map.1 hx
      cases b
      · simp [rowHeight]
      · simp only [rowHeight]; omega
    have hsz : OnScrollGetSize h (a :: l) = rowHeight h a + OnScrollGetSize h l := by
      cases a <;> simp [OnScrollGetSize, rowHeight]
    rw [hitRow_cons]
    have : ¬ y < rowHeight h a := by omega
    rw [if_neg this]
    exact ih _ (by omega)

theorem OnScrollMouseDown_loop_eq (h : Int) (l : List ScenarioListItem) :
    ∀ y : Int, OnScrollMouseDown.loop h l y =
      match hitRow h l y with
      | some (ScenarioListItem.Scenario scenario false) => [scenario.Path]
      | _ => [] := by
  induction l with
  | nil => intro y; simp [OnScrollMouseDown.loop, hitRow_nil]
  | cons a l ih =>
    intro y
    rw [hitRow_cons]
    cases a with
    | Heading sid =>
      simp only [OnScrollMouseDown.loop, rowHeight]
      by_cases hy : y < 18
      · have : y - 18 < 0 := by omega
        simp [hy, this]
      · have : ¬ y - 18 < 0 := by omega
        simp only [hy, this, if_false]
        exact ih _
    | Scenario sc locked =>
      simp only [OnScrollMouseDown.loop, rowHeight]
      by_cases hy : y < h
      · have : y - h < 0 := by omega
        cases locked <;> simp [hy, this]
      · have : ¬ y - h < 0 := by omega
        simp only [hy, this, if_false, false_and]
        exact ih _

theorem OnScrollMouseOver_loop_eq (h : Int) (l : List ScenarioListItem) :
    ∀ y : Int, OnScrollMouseOver.loop h l y (false, none) =
      match hitRow h l y with
      | some (ScenarioListItem.Scenario scenario false) => (false, some scenario)
      | some (ScenarioListItem.Scenario _ true) => (true, none)
      | _ => (false, none) := by
  induction l with
  | nil => intro y; simp [OnScrollMouseOver.loop, hitRow_nil]
  | cons a l ih =>
    intro y
    rw [hitRow_cons]
    cases a with
    | Heading sid =>
      simp only [OnScrollMouseOver.loop, rowHeight]
      by_cases hy : y < 18
      · have : y - 18 < 0 := by omega
        simp [hy, this]
      · have : ¬ y - 18 < 0 := by omega
        simp only [hy, this, if_false]
        exact ih _
    | Scenario sc locked =>
      simp only [OnScrollMouseOver.loop, rowHeight]
      by_cases hy : y < h
      · have : y - h < 0 := by omega
        cases locked <;> simp [hy, this]
      · have : ¬ y - h < 0 := by omega
        simp only [hy, this, if_false]
        exact ih _

theorem OnScrollMouseOver_fields (w : ScenarioSelectWindow) (h y : Int) :
    (OnScrollMouseOver w h y)._highlightedScenario
        = (OnScrollMouseOver.loop h w._listItems y (false, none)).2 ∧
    (OnScrollMouseOver w h y)._showLockedInformation
        = (OnScrollMouseOver.loop h w._listItems y (false, none)).1 := by
  unfold OnScrollMouseOver
  simp only
  split
  · exact ⟨rfl, rfl⟩
  · rename_i hne
    simp only [ne_eq, not_not] at hne
    exact ⟨hne, rfl⟩

/-! ## Lemmas on the list building loop -/

theorem IsScenarioVisible_iff (K : Consts) (cfg : Config) (selected_tab : Int)
    (scenario : ScenarioIndexEntry) :
    IsScenarioVisible K cfg selected_tab scenario = true ↔
      (tabOf K cfg scenario : Int) = selected_tab := by
  unfold IsScenarioVisible tabOf
  by_cases hm : cfg.ScenarioSelectMode = K.SCENARIO_SELECT_MODE_ORIGIN
  · simp [hm]
  · simp only [hm, if_false]
    by_cases hc : scenario.Category > K.SCENARIO_CATEGORY_OTHER
    · have : min scenario.Category K.SCENARIO_CATEGORY_OTHER = K.SCENARIO_CATEGORY_OTHER := by
        omega
      simp [hc, this]
    · have : min scenario.Category K.SCENARIO_CATEGORY_OTHER = scenario.Category := by omega
      simp [hc, this]

theorem scenarioRows_append (l₁ l₂ : List ScenarioListItem) :
    scenarioRows (l₁ ++ l₂) = scenarioRows l₁ ++ scenarioRows l₂ := by
  simp [scenarioRows, List.filterMap_append]

theorem body_of_not_visible (K : Consts) (cfg : Config) (tab : Int)
    (st : InitialiseListItems.Locals) (s : ScenarioIndexEntry)
    (hv : IsScenarioVisible K cfg tab s = false) :
    InitialiseListItems.body K cfg tab st s = st := by
  simp [InitialiseListItems.body, hv]

/-- The rows one iteration appends for a visible scenario: an optional heading and the
scenario row. -/
theorem body_items_of_visible (K : Consts) (cfg : Config) (tab : Int)
    (st : InitialiseListItems.Locals) (s : ScenarioIndexEntry)
    (hv : IsScenarioVisible K cfg tab s = true) :
    ∃ hs : List ScenarioListItem, (hs = [] ∨ ∃ sid, hs = [ScenarioListItem.Heading sid]) ∧
      (InitialiseListItems.body K cfg tab st s)._listItems =
        st._listItems ++ hs ++
          [ScenarioListItem.Scenario s
            (IsLockingEnabled K cfg tab && decide (st.numUnlocks ≤ 0))] := by
  unfold InitialiseListItems.body
  simp only [hv, Bool.true_eq_false, if_false]
  by_cases hh : (InitialiseListItems.heading K cfg tab st.currentHeading s).2 ≠ K.STR_NONE
  · refine ⟨[ScenarioListItem.Heading (InitialiseListItems.heading K cfg tab st.currentHeading s).2],
      Or.inr ⟨_, rfl⟩, ?_⟩
    rw [if_pos hh]
    cases hl : IsLockingEnabled K cfg tab
    · simp only [Bool.false_eq_true, if_false, Bool.false_and]
    · simp only [if_true, Bool.true_and]
  · refine ⟨[], Or.inl rfl, ?_⟩
    rw [if_neg hh]
    cases hl : IsLockingEnabled K cfg tab
    · simp only [Bool.false_eq_true, if_false, Bool.false_and, List.append_nil]
    · simp only [if_true, Bool.true_and, List.append_nil]

theorem body_scenarioRows (K : Consts) (cfg : Config) (tab : Int)
    (st : InitialiseListItems.Locals) (s : ScenarioIndexEntry) :
    scenarioRows (InitialiseListItems.body K cfg tab st s)._listItems =
      scenarioRows st._listItems ++ (if IsScenarioVisible K cfg tab s then [s] else []) := by
  by_cases hv : IsScenarioVisible K cfg tab s = true
  · obtain ⟨hs, hhs, heq⟩ := body_items_of_visible K cfg tab st s hv
    rw [heq, scenarioRows_append, scenarioRows_append]
    rcases hhs with rfl | ⟨sid, rfl⟩ <;> simp [scenarioRows, scenarioOf, hv]
  · simp only [Bool.not_eq_true] at hv
    simp [body_of_not_visible K cfg tab st s hv, hv]

theorem foldl_body_scenarioRows (K : Consts) (cfg : Config) (tab : Int)
    (repo : List ScenarioIndexEntry) :
    ∀ st : InitialiseListItems.Locals,
      scenarioRows (repo.foldl (InitialiseListItems.body K cfg tab) st)._listItems =
        scenarioRows st._listItems ++ repo.filter (IsScenarioVisible K cfg tab) := by
  induction repo with
  | nil => intro st; simp
  | cons s repo ih =>
    intro st
    rw [List.foldl_cons, ih, body_scenarioRows, List.filter_cons]
    by_cases hv : IsScenarioVisible K cfg tab s = true <;> simp [hv]

theorem loop_scenarioRows (K : Consts) (cfg : Config) (tab : Int)
    (repo : List ScenarioIndexEntry) :
    scenarioRows (InitialiseListItems.loop K cfg tab repo)._listItems =
      repo.filter (IsScenarioVisible K cfg tab) := by
  unfold InitialiseListItems.loop
  rw [foldl_body_scenarioRows]
  simp [InitialiseListItems.init, scenarioRows]

theorem setIsLocked_scenarioRows (b : Bool) (l : List ScenarioListItem) :
    ∀ n : Nat, scenarioRows (setIsLocked b l n) = scenarioRows l := by
  induction l with
  | nil => intro n; rfl
  | cons a l ih =>
    intro n
    cases n with
    | zero => cases a <;> simp [setIsLocked, scenarioRows, scenarioOf]
    | succ n =>
      have := ih n
      simp only [scenarioRows] at this
      simp [setIsLocked, scenarioRows, List.filterMap_cons, this]

theorem body_numUnlocks (K : Consts) (cfg : Config) (tab : Int)
    (st : InitialiseListItems.Locals) (s : ScenarioIndexEntry)
    (hv : IsScenarioVisible K cfg tab s = true) (hl : IsLockingEnabled K cfg tab = true) :
    (InitialiseListItems.body K cfg tab st s).numUnlocks =
      if s.Highscore.isNone then st.numUnlocks - 1 else st.numUnlocks := by
  unfold InitialiseListItems.body
  simp only [hv, hl, Bool.true_eq_false, if_false, if_true]

theorem body_megaPark_locking (K : Consts) (cfg : Config) (tab : Int)
    (st : InitialiseListItems.Locals) (s : ScenarioIndexEntry)
    (hv : IsScenarioVisible K cfg tab s = true) (hl : IsLockingEnabled K cfg tab = true)
    (hm : s.ScenarioId ≠ K.SC_MEGA_PARK) :
    (InitialiseListItems.body K cfg tab st s).megaParkListItemIndex
      = st.megaParkListItemIndex := by
  unfold InitialiseListItems.body
  simp only [hv, hl, hm, Bool.true_eq_false, if_false, if_true]

theorem body_megaPark_not_locking (K : Consts) (cfg : Config) (tab : Int)
    (st : InitialiseListItems.Locals) (s : ScenarioIndexEntry)
    (hl : IsLockingEnabled K cfg tab = false) :
    (InitialiseListItems.body K cfg tab st s).megaParkListItemIndex
      = st.megaParkListItemIndex := by
  unfold InitialiseListItems.body
  by_cases hv : IsScenarioVisible K cfg tab s = false
  · simp only [hv, if_true]
  · have hv' : IsScenarioVisible K cfg tab s = true := by simpa using hv
    simp only [hv', hl, Bool.true_eq_false, Bool.false_eq_true, if_false]

/-- Induction over the loop: a property of the locals that every iteration preserves holds
after the loop when it held before. -/
theorem foldl_body_induction (K : Consts) (cfg : Config) (tab : Int)
    (P : InitialiseListItems.Locals → Prop) (repo : List ScenarioIndexEntry)
    (hstep : ∀ st s, s ∈ repo → P st → P (InitialiseListItems.body K cfg tab st s)) :
    ∀ st, P st → P (repo.foldl (InitialiseListItems.body K cfg tab) st) := by
  induction repo with
  | nil => intro st h; exact h
  | cons s repo ih =>
    intro st h
    rw [List.foldl_cons]
    apply ih
    · intro st' s' hs' hP
      exact hstep st' s' (List.mem_cons_of_mem _ hs') hP
    · exact hstep st s (List.mem_cons_self _ _) h

theorem noHighscoreCount_append (l₁ l₂ : List ScenarioListItem) :
    noHighscoreCount (l₁ ++ l₂) = noHighscoreCount l₁ + noHighscoreCount l₂ := by
  simp [noHighscoreCount]

theorem noHighscoreCount_le_scenarioRows (l : List ScenarioListItem) :
    noHighscoreCount l ≤ (scenarioRows l).length := by
  induction l with
  | nil => simp [noHighscoreCount, scenarioRows]
  | cons a l ih =>
    simp only [noHighscoreCount, scenarioRows] at ih ⊢
    cases a with
    | Heading sid => simpa [List.countP_cons, hasNoHighscore, scenarioOf] using ih
    | Scenario sc b =>
      simp only [List.countP_cons, hasNoHighscore, List.filterMap_cons, scenarioOf,
        List.length_cons]
      split <;> omega

theorem LockCounted_concat (l : List ScenarioListItem) (x : ScenarioListItem)
    (hl : LockCounted l)
    (hx : ∀ scenario is_locked, x = ScenarioListItem.Scenario scenario is_locked →
      (is_locked = true ↔ InitialNumUnlockedScenarios ≤ (noHighscoreCount l : Int))) :
    LockCounted (l ++ [x]) := by
  intro i sc b hget
  rcases Nat.lt_or_ge i l.length with hi | hi
  · rw [List.getElem?_append_left hi] at hget
    rw [List.take_append_of_le_length (Nat.le_of_lt hi)]
    exact hl i sc b hget
  · rw [List.getElem?_append_right hi] at hget
    have h0 : i - l.length = 0 := by
      by_contra hne
      obtain ⟨k, hk⟩ := Nat.exists_eq_succ_of_ne_zero hne
      rw [hk] at hget
      simp at hget
    have hi' : l.length = i := by omega
    rw [h0] at hget
    simp only [List.getElem?_cons_zero, Option.some.injEq] at hget
    rw [List.take_left' hi']
    exact hx sc b hget

theorem LockInv_body (K : Consts) (cfg : Config) (tab : Int)
    (st : InitialiseListItems.Locals) (s : ScenarioIndexEntry)
    (hl : IsLockingEnabled K cfg tab = true)
    (hm : IsScenarioVisible K cfg tab s = true → s.ScenarioId ≠ K.SC_MEGA_PARK)
    (h : LockInv st) : LockInv (InitialiseListItems.body K cfg tab st s) := by
  by_cases hv : IsScenarioVisible K cfg tab s = true
  · obtain ⟨hmega, hnum, hcounted⟩ := h
    obtain ⟨hs, hhs, heq⟩ := body_items_of_visible K cfg tab st s hv
    have hcnt : noHighscoreCount (st._listItems ++ hs) = noHighscoreCount st._listItems := by
      rw [noHighscoreCount_append]
      rcases hhs with rfl | ⟨sid, rfl⟩ <;> simp [noHighscoreCount, hasNoHighscore]
    have hcounted' : LockCounted (st._listItems ++ hs) := by
      rcases hhs with rfl | ⟨sid, rfl⟩
      · simpa using hcounted
      · exact LockCounted_concat _ _ hcounted (by intro sc b hc; cases hc)
    refine ⟨?_, ?_, ?_⟩
    · rw [body_megaPark_locking K cfg tab st s hv hl (hm hv)]
      exact hmega
    · rw [body_numUnlocks K cfg tab st s hv hl, heq, noHighscoreCount_append, hcnt, hnum]
      cases hhs : s.Highscore <;>
        simp [noHighscoreCount, hasNoHighscore, hhs]
      omega
    · rw [heq]
      apply LockCounted_concat _ _ hcounted'
      intro sc b hc
      simp only [ScenarioListItem.Scenario.injEq] at hc
      rw [hcnt, ← hc.2, hl, hnum]
      simp only [Bool.true_and, decide_eq_true_eq]
      omega
  · simp only [Bool.not_eq_true] at hv
    rw [body_of_not_visible K cfg tab st s hv]
    exact h

theorem LockInv_loop (K : Consts) (cfg : Config) (tab : Int) (repo : List ScenarioIndexEntry)
    (hl : IsLockingEnabled K cfg tab = true)
    (hm : ∀ s ∈ repo, IsScenarioVisible K cfg tab s = true → s.ScenarioId ≠ K.SC_MEGA_PARK) :
    LockInv (InitialiseListItems.loop K cfg tab repo) := by
  unfold InitialiseListItems.loop
  apply foldl_body_induction K cfg tab LockInv repo
  · intro st s hs hP
    exact LockInv_body K cfg tab st s hl (hm s hs) hP
  · refine ⟨rfl, ?_, ?_⟩
    · simp [InitialiseListItems.init, noHighscoreCount]
    · intro i sc b hget
      simp [InitialiseListItems.init] at hget

theorem IsLockingEnabled_iff (K : Consts) (cfg : Config) (tab : Int) :
    IsLockingEnabled K cfg tab = true ↔
      cfg.ScenarioSelectMode = K.SCENARIO_SELECT_MODE_ORIGIN ∧
      cfg.ScenarioUnlockingEnabled = true ∧ tab < 6 := by
  unfold IsLockingEnabled
  by_cases hm : cfg.ScenarioSelectMode = K.SCENARIO_SELECT_MODE_ORIGIN
  · cases hu : cfg.ScenarioUnlockingEnabled
    · simp [hm]
    · by_cases ht : tab ≥ 6
      · have : ¬ tab < 6 := by omega
        simp [hm, ht, this]
      · have : tab < 6 := by omega
        simp [hm, ht, this]
  · simp [hm]

theorem megaPark_of_none (K : Consts) (cfg : Config) (st : InitialiseListItems.Locals)
    (h : st.megaParkListItemIndex = none) :
    InitialiseListItems.megaPark K cfg st = st._listItems := by
  unfold InitialiseListItems.megaPark
  rw [h]

theorem unlocked_loop (K : Consts) (cfg : Config) (tab : Int) (repo : List ScenarioIndexEntry)
    (hl : IsLockingEnabled K cfg tab = false) :
    (InitialiseListItems.loop K cfg tab repo).megaParkListItemIndex = none ∧
    ∀ scenario is_locked,
      ScenarioListItem.Scenario scenario is_locked
        ∈ (InitialiseListItems.loop K cfg tab repo)._listItems → is_locked = false := by
  unfold InitialiseListItems.loop
  apply foldl_body_induction K cfg tab
    (fun st => st.megaParkListItemIndex = none ∧
      ∀ scenario is_locked,
        ScenarioListItem.Scenario scenario is_locked ∈ st._listItems → is_locked = false) repo
  · intro st s _ hP
    refine ⟨?_, ?_⟩
    · rw [body_megaPark_not_locking K cfg tab st s hl]
      exact hP.1
    · by_cases hv : IsScenarioVisible K cfg tab s = true
      · obtain ⟨hs, hhs, heq⟩ := body_items_of_visible K cfg tab st s hv
        rw [heq, hl]
        intro sc b hmem
        simp only [List.mem_append, List.mem_singleton, Bool.false_and,
          ScenarioListItem.Scenario.injEq] at hmem
        rcases hmem with (hmem | hmem) | hmem
        · exact hP.2 sc b hmem
        · rcases hhs with rfl | ⟨sid, rfl⟩ <;> simp at hmem
        · exact hmem.2
      · simp only [Bool.not_eq_true] at hv
        rw [body_of_not_visible K cfg tab st s hv]
        exact hP.2
  · exact ⟨rfl, by intro sc b hmem; simp [InitialiseListItems.init] at hmem⟩

/-! ## Lemmas on headings -/

theorem HeadingsFollowed_nil : HeadingsFollowed [] := by
  intro i sid h
  simp at h

theorem HeadingsFollowed_cons (x : ScenarioListItem) (l : List ScenarioListItem) :
    HeadingsFollowed (x :: l) ↔
      (isHeading x = true → ∃ scenario is_locked,
        l[0]? = some (ScenarioListItem.Scenario scenario is_locked)) ∧ HeadingsFollowed l := by
  constructor
  · intro h
    refine ⟨?_, ?_⟩
    · intro hx
      cases x with
      | Heading sid => simpa using h 0 sid (by simp)
      | Scenario sc b => simp [isHeading] at hx
    · intro i sid hi
      simpa using h (i + 1) sid (by simpa using hi)
  · rintro ⟨h0, hl⟩ i sid hi
    cases i with
    | zero =>
      simp only [List.getElem?_cons_zero, Option.some.injEq] at hi
      subst hi
      simpa using h0 rfl
    | succ i =>
      simp only [List.getElem?_cons_succ] at hi ⊢
      exact hl i sid hi

theorem HeadingsFollowed_append (l₁ l₂ : List ScenarioListItem)
    (h₁ : HeadingsFollowed l₁) (h₂ : HeadingsFollowed l₂) : HeadingsFollowed (l₁ ++ l₂) := by
  intro i sid hi
  rcases Nat.lt_or_ge i l₁.length with hlt | hge
  · rw [List.getElem?_append_left hlt] at hi
    obtain ⟨sc, b, hn⟩ := h₁ i sid hi
    have hlt' : i + 1 < l₁.length := by
      by_contra hc
      rw [List.getElem?_eq_none (by omega)] at hn
      cases hn
    exact ⟨sc, b, by rw [List.getElem?_append_left hlt']; exact hn⟩
  · rw [List.getElem?_append_right hge] at hi
    obtain ⟨sc, b, hn⟩ := h₂ _ sid hi
    refine ⟨sc, b, ?_⟩
    rw [List.getElem?_append_right (by omega)]
    have : i + 1 - l₁.length = i - l₁.length + 1 := by omega
    rw [this]
    exact hn

theorem HeadingsFollowed_of_isHeading_eq (l₁ l₂ : List ScenarioListItem)
    (hmap : l₁.map isHeading = l₂.map isHeading) (h : HeadingsFollowed l₁) :
    HeadingsFollowed l₂ := by
  have hget : ∀ i : Nat, (l₁[i]?).map isHeading = (l₂[i]?).map isHeading := by
    intro i
    rw [← List.getElem?_map, ← List.getElem?_map, hmap]
  intro i sid hi
  have h1 := hget i
  rw [hi] at h1
  cases hx : l₁[i]? with
  | none => rw [hx] at h1; simp at h1
  | some x =>
    rw [hx] at h1
    cases x with
    | Scenario sc b => simp [isHeading] at h1
    | Heading sid' =>
      obtain ⟨sc, b, hn⟩ := h i sid' hx
      have h2 := hget (i + 1)
      rw [hn] at h2
      cases hy : l₂[i + 1]? with
      | none => rw [hy] at h2; simp at h2
      | some y =>
        rw [hy] at h2
        cases y with
        | Heading sid'' => simp [isHeading] at h2
        | Scenario sc' b' => exact ⟨sc', b', rfl⟩

theorem setIsLocked_map_isHeading (b : Bool) (l : List ScenarioListItem) :
    ∀ n : Nat, (setIsLocked b l n).map isHeading = l.map isHeading := by
  induction l with
  | nil => intro n; rfl
  | cons a l ih =>
    intro n
    cases n with
    | zero => cases a <;> simp [setIsLocked, isHeading]
    | succ n => simp [setIsLocked, ih n]

theorem removeEmptyHeadings_head (l : List ScenarioListItem) (sc : ScenarioIndexEntry)
    (b : Bool) :
    removeEmptyHeadings (ScenarioListItem.Scenario sc b :: l)
      = ScenarioListItem.Scenario sc b :: removeEmptyHeadings l := by
  simp [removeEmptyHeadings]

theorem removeEmptyHeadings_HeadingsFollowed (l : List ScenarioListItem) :
    HeadingsFollowed (removeEmptyHeadings l) := by
  induction l with
  | nil => simpa [removeEmptyHeadings] using HeadingsFollowed_nil
  | cons a l ih =>
    cases a with
    | Scenario sc b =>
      rw [removeEmptyHeadings_head, HeadingsFollowed_cons]
      exact ⟨by simp [isHeading], ih⟩
    | Heading sid =>
      cases l with
      | nil => simpa [removeEmptyHeadings] using HeadingsFollowed_nil
      | cons a' l' =>
        cases a' with
        | Heading sid' =>
          have : removeEmptyHeadings (ScenarioListItem.Heading sid :: ScenarioListItem.Heading sid' :: l')
              = removeEmptyHeadings (ScenarioListItem.Heading sid' :: l') := by
            rw [removeEmptyHeadings]
          rw [this]
          exact ih
        | Scenario sc b =>
          have : removeEmptyHeadings
                (ScenarioListItem.Heading sid :: ScenarioListItem.Scenario sc b :: l')
              = ScenarioListItem.Heading sid
                  :: removeEmptyHeadings (ScenarioListItem.Scenario sc b :: l') := by
            simp [removeEmptyHeadings]
          rw [this, HeadingsFollowed_cons]
          refine ⟨fun _ => ⟨sc, b, ?_⟩, ih⟩
          rw [removeEmptyHeadings_head]
          simp

theorem loop_HeadingsFollowed (K : Consts) (cfg : Config) (tab : Int)
    (repo : List ScenarioIndexEntry) :
    HeadingsFollowed (InitialiseListItems.loop K cfg tab repo)._listItems := by
  unfold InitialiseListItems.loop
  apply foldl_body_induction K cfg tab (fun st => HeadingsFollowed st._listItems) repo
  · intro st s _ hP
    by_cases hv : IsScenarioVisible K cfg tab s = true
    · obtain ⟨hs, hhs, heq⟩ := body_items_of_visible K cfg tab st s hv
      show HeadingsFollowed _
      rw [heq, List.append_assoc]
      apply HeadingsFollowed_append _ _ hP
      rcases hhs with rfl | ⟨sid, rfl⟩
      · rw [List.nil_append, HeadingsFollowed_cons]
        exact ⟨by simp [isHeading], HeadingsFollowed_nil⟩
      · rw [List.singleton_append, HeadingsFollowed_cons, HeadingsFollowed_cons]
        exact ⟨fun _ => ⟨s, _, List.getElem?_cons_zero⟩, by simp [isHeading],
          HeadingsFollowed_nil⟩
    · simp only [Bool.not_eq_true] at hv
      rw [body_of_not_visible K cfg tab st s hv]
      exact hP
  · exact HeadingsFollowed_nil

theorem megaPark_HeadingsFollowed (K : Consts) (cfg : Config)
    (st : InitialiseListItems.Locals) (h : HeadingsFollowed st._listItems) :
    HeadingsFollowed (InitialiseListItems.megaPark K cfg st) := by
  unfold InitialiseListItems.megaPark
  split
  · exact h
  · simp only
    split
    · exact removeEmptyHeadings_HeadingsFollowed _
    · exact HeadingsFollowed_of_isHeading_eq _ _ (setIsLocked_map_isHeading _ _ _).symm h

/-! ## Lemmas on the Mega Park handling -/

theorem body_rct1 (K : Consts) (cfg : Config) (tab : Int)
    (st : InitialiseListItems.Locals) (s : ScenarioIndexEntry)
    (hv : IsScenarioVisible K cfg tab s = true) (hl : IsLockingEnabled K cfg tab = true) :
    (InitialiseListItems.body K cfg tab st s).rct1CompletedScenarios =
      if s.Highscore.isSome ∧ s.ScenarioId < K.SC_MEGA_PARK then
        (st.rct1CompletedScenarios ||| (1 <<< s.ScenarioId)) % 2 ^ 32
      else st.rct1CompletedScenarios := by
  unfold InitialiseListItems.body
  simp only [hv, hl, Bool.true_eq_false, if_false, if_true]

theorem body_megaPark_found (K : Consts) (cfg : Config) (tab : Int)
    (st : InitialiseListItems.Locals) (s : ScenarioIndexEntry)
    (hv : IsScenarioVisible K cfg tab s = true) (hl : IsLockingEnabled K cfg tab = true)
    (hm : s.ScenarioId = K.SC_MEGA_PARK) :
    (InitialiseListItems.body K cfg tab st s).megaParkListItemIndex ≠ none := by
  unfold InitialiseListItems.body
  simp only [hv, hl, hm, Bool.true_eq_false, if_false, if_true]
  exact Option.some_ne_none _

theorem MaskInv_loop (K : Consts) (cfg : Config) (tab : Int) (repo : List ScenarioIndexEntry)
    (hl : IsLockingEnabled K cfg tab = true) (hM : K.SC_MEGA_PARK < 31) :
    MaskInv K (InitialiseListItems.loop K cfg tab repo) := by
  unfold InitialiseListItems.loop
  apply foldl_body_induction K cfg tab (MaskInv K) repo
  · intro st s _ hP
    by_cases hv : IsScenarioVisible K cfg tab s = true
    · intro j
      have hrows := body_scenarioRows K cfg tab st s
      rw [hv] at hrows
      simp only [if_true] at hrows
      rw [body_rct1 K cfg tab st s hv hl, hrows]
      by_cases hc : s.Highscore.isSome ∧ s.ScenarioId < K.SC_MEGA_PARK
      · rw [if_pos hc, Nat.testBit_mod_two_pow, Nat.testBit_or, Nat.one_shiftLeft,
          Nat.testBit_two_pow]
        simp only [Bool.and_eq_true, decide_eq_true_eq, Bool.or_eq_true, List.mem_append,
          List.mem_singleton, hP j]
        constructor
        · rintro ⟨_, h | h⟩
          · obtain ⟨hj, s', hs', h1, h2⟩ := h
            exact ⟨hj, s', Or.inl hs', h1, h2⟩
          · exact ⟨by omega, s, Or.inr rfl, h, hc.1⟩
        · rintro ⟨hj, s', hs' | hs', h1, h2⟩
          · exact ⟨by omega, Or.inl ⟨hj, s', hs', h1, h2⟩⟩
          · subst hs'
            exact ⟨by omega, Or.inr h1⟩
      · rw [if_neg hc, hP j]
        simp only [List.mem_append, List.mem_singleton]
        constructor
        · rintro ⟨hj, s', hs', h1, h2⟩
          exact ⟨hj, s', Or.inl hs', h1, h2⟩
        · rintro ⟨hj, s', hs' | hs', h1, h2⟩
          · exact ⟨hj, s', hs', h1, h2⟩
          · subst hs'
            exact absurd ⟨h2, by omega⟩ hc
    · simp only [Bool.not_eq_true] at hv
      rw [body_of_not_visible K cfg tab st s hv]
      exact hP
  · intro j
    simp [InitialiseListItems.init, scenarioRows]

theorem rct1Required_eq (K : Consts) (hM : K.SC_MEGA_PARK < 31) :
    rct1RequiredCompletedScenarios K = 2 ^ K.SC_MEGA_PARK - 1 := by
  unfold rct1RequiredCompletedScenarios
  rw [Nat.one_shiftLeft]
  apply Nat.mod_eq_of_lt
  have h1 : 2 ^ K.SC_MEGA_PARK ≤ 2 ^ 32 := Nat.pow_le_pow_right (by decide) (by omega)
  have h2 : 0 < 2 ^ K.SC_MEGA_PARK := Nat.two_pow_pos _
  omega

theorem mask_complete_iff (x n : Nat) :
    x &&& (2 ^ n - 1) = 2 ^ n - 1 ↔ ∀ j < n, x.testBit j = true := by
  constructor
  · intro h j hj
    have h1 : (x &&& (2 ^ n - 1)).testBit j = (2 ^ n - 1).testBit j := by rw [h]
    rw [Nat.testBit_and, Nat.testBit_two_pow_sub_one] at h1
    simpa [hj] using h1
  · intro h
    apply Nat.eq_of_testBit_eq
    intro j
    rw [Nat.testBit_and, Nat.testBit_two_pow_sub_one]
    by_cases hj : j < n
    · simp [hj, h j hj]
    · simp [hj]

/-- The test "Mega park handling" makes, in terms of the visible scenarios: Mega Park is
found locked exactly when some scenario id below `SC_MEGA_PARK` has no visible scenario with
a highscore. -/
theorem megaParkLocked_iff (K : Consts) (cfg : Config) (tab : Int)
    (repo : List ScenarioIndexEntry)
    (hl : IsLockingEnabled K cfg tab = true) (hM : K.SC_MEGA_PARK < 31) :
    ((InitialiseListItems.loop K cfg tab repo).rct1CompletedScenarios
        &&& rct1RequiredCompletedScenarios K) ≠ rct1RequiredCompletedScenarios K ↔
      ¬ ∀ j < K.SC_MEGA_PARK, ∃ s ∈ repo.filter (IsScenarioVisible K cfg tab),
          s.ScenarioId = j ∧ s.Highscore.isSome = true := by
  have hmask := MaskInv_loop K cfg tab repo hl hM
  unfold MaskInv at hmask
  rw [loop_scenarioRows] at hmask
  rw [rct1Required_eq K hM, Ne, mask_complete_iff]
  apply not_congr
  constructor
  · intro h j hj
    exact ((hmask j).1 (h j hj)).2
  · intro h j hj
    exact (hmask j).2 ⟨hj, h j hj⟩

theorem removeEmptyHeadings_scenarioRows (l : List ScenarioListItem) :
    scenarioRows (removeEmptyHeadings l) = scenarioRows l := by
  induction l with
  | nil => rfl
  | cons a l ih =>
    cases a with
    | Scenario sc b =>
      rw [removeEmptyHeadings_head]
      simp only [scenarioRows, List.filterMap_cons, scenarioOf] at ih ⊢
      rw [ih]
    | Heading sid =>
      cases l with
      | nil => simp [removeEmptyHeadings, scenarioRows, scenarioOf]
      | cons a' l' =>
        cases a' with
        | Heading sid' =>
          have : removeEmptyHeadings (ScenarioListItem.Heading sid :: ScenarioListItem.Heading sid' :: l')
              = removeEmptyHeadings (ScenarioListItem.Heading sid' :: l') := by
            rw [removeEmptyHeadings]
          rw [this, ih]
          simp [scenarioRows, scenarioOf]
        | Scenario sc b =>
          have : removeEmptyHeadings
                (ScenarioListItem.Heading sid :: ScenarioListItem.Scenario sc b :: l')
              = ScenarioListItem.Heading sid
                  :: removeEmptyHeadings (ScenarioListItem.Scenario sc b :: l') := by
            simp [removeEmptyHeadings]
          rw [this]
          simp only [scenarioRows, List.filterMap_cons, scenarioOf] at ih ⊢
          rw [ih]

/-- A non-empty list without empty headings ends with a scenario row. -/
theorem HeadingsFollowed_last (l : List ScenarioListItem) (h : HeadingsFollowed l)
    (hne : l ≠ []) :
    ∃ l' scenario is_locked, l = l' ++ [ScenarioListItem.Scenario scenario is_locked] := by
  have hsplit := (List.dropLast_concat_getLast hne).symm
  cases hlast : l.getLast hne with
  | Scenario sc b => exact ⟨l.dropLast, sc, b, by rw [← hlast]; exact hsplit⟩
  | Heading sid =>
    exfalso
    have hlen : 0 < l.length := List.length_pos.2 hne
    have hget : l[l.length - 1]? = some (ScenarioListItem.Heading sid) := by
      rw [← List.getLast?_eq_getElem?, List.getLast?_eq_getLast l hne, hlast]
    obtain ⟨sc, b, hn⟩ := h _ _ hget
    rw [List.getElem?_eq_none (by omega)] at hn
    cases hn

/-- When Mega Park is the last visible scenario, locking is enabled, Mega Park is found
locked and the hide setting is on, the rebuilt list has a row for every visible scenario
in front of Mega Park and none for Mega Park. -/
theorem InitialiseListItems_hide_megaPark_last (K : Consts) (cfg : Config)
    (repo : List ScenarioIndexEntry) (w : ScenarioSelectWindow)
    (hl : IsLockingEnabled K cfg w.selected_tab = true)
    (hide : cfg.ScenarioHideMegaPark = true) (hM : K.SC_MEGA_PARK < 31)
    (front : List ScenarioIndexEntry) (mp : ScenarioIndexEntry)
    (hvis : repo.filter (IsScenarioVisible K cfg w.selected_tab) = front ++ [mp])
    (hmp : mp.ScenarioId = K.SC_MEGA_PARK)
    (hincomplete : ¬ ∀ j < K.SC_MEGA_PARK, ∃ s ∈ front ++ [mp],
      s.ScenarioId = j ∧ s.Highscore.isSome = true) :
    scenarioRows (InitialiseListItems K cfg repo w)._listItems = front := by
  have hlocked := (megaParkLocked_iff K cfg w.selected_tab repo hl hM).2 (by rw [hvis]; exact hincomplete)
  have hrows := loop_scenarioRows K cfg w.selected_tab repo
  rw [hvis] at hrows
  have hfound : (InitialiseListItems.loop K cfg w.selected_tab repo).megaParkListItemIndex
      ≠ none := by
    have hinv : ∀ st' : InitialiseListItems.Locals,
        st' = InitialiseListItems.loop K cfg w.selected_tab repo →
        ((∃ s ∈ scenarioRows st'._listItems, s.ScenarioId = K.SC_MEGA_PARK) →
          st'.megaParkListItemIndex ≠ none) := by
      intro st' hst'
      rw [hst']
      unfold InitialiseListItems.loop
      apply foldl_body_induction K cfg w.selected_tab
        (fun st => (∃ s ∈ scenarioRows st._listItems, s.ScenarioId = K.SC_MEGA_PARK) →
          st.megaParkListItemIndex ≠ none) repo
      · intro st s _ hP
        by_cases hv : IsScenarioVisible K cfg w.selected_tab s = true
        · rw [body_scenarioRows, hv]
          simp only [if_true, List.mem_append, List.mem_singleton]
          rintro ⟨s', hs' | hs', hid⟩
          · by_cases hm : s.ScenarioId = K.SC_MEGA_PARK
            · exact body_megaPark_found K cfg w.selected_tab st s hv hl hm
            · rw [body_megaPark_locking K cfg w.selected_tab st s hv hl hm]
              exact hP ⟨s', hs', hid⟩
          · subst hs'
            exact body_megaPark_found K cfg w.selected_tab st s' hv hl hid
        · simp only [Bool.not_eq_true] at hv
          rw [body_of_not_visible K cfg w.selected_tab st s hv]
          exact hP
      · rintro ⟨s, hs, _⟩
        simp [InitialiseListItems.init, scenarioRows] at hs
    apply hinv _ rfl
    rw [hrows]
    exact ⟨mp, by simp, hmp⟩
  unfold InitialiseListItems InitialiseListItems.megaPark
  simp only
  cases hidx : (InitialiseListItems.loop K cfg w.selected_tab repo).megaParkListItemIndex with
  | none => exact absurd hidx hfound
  | some idx =>
    simp only [hlocked, hide, decide_True, and_self, if_true, ne_eq, not_false_eq_true]
    rw [removeEmptyHeadings_scenarioRows]
    have hHF : HeadingsFollowed
        (setIsLocked true (InitialiseListItems.loop K cfg w.selected_tab repo)._listItems idx) :=
      HeadingsFollowed_of_isHeading_eq _ _ (setIsLocked_map_isHeading _ _ _).symm
        (loop_HeadingsFollowed K cfg w.selected_tab repo)
    have hrows2 := setIsLocked_scenarioRows true
      (InitialiseListItems.loop K cfg w.selected_tab repo)._listItems idx
    rw [hrows] at hrows2
    generalize setIsLocked true
      (InitialiseListItems.loop K cfg w.selected_tab repo)._listItems idx = items at hHF hrows2
    have hne : items ≠ [] := by
      intro h0
      rw [h0] at hrows2
      simp [scenarioRows] at hrows2
    obtain ⟨l', sc, b, rfl⟩ := HeadingsFollowed_last items hHF hne
    rw [List.dropLast_concat]
    rw [scenarioRows_append] at hrows2
    simp only [scenarioRows, List.filterMap_cons, scenarioOf, List.filterMap_nil] at hrows2
    exact (List.append_inj' hrows2 rfl).1

/-! ## Lemmas on the tabs -/

theorem and_one_shiftLeft_eq_zero (x i : Nat) : x &&& (1 <<< i) = 0 ↔ x.testBit i = false := by
  rw [Nat.one_shiftLeft]
  constructor
  · intro h
    have h1 : (x &&& 2 ^ i).testBit i = false := by rw [h]; exact Nat.zero_testBit i
    simpa [Nat.testBit_and, Nat.testBit_two_pow_self] using h1
  · intro h
    apply Nat.eq_of_testBit_eq
    intro j
    rw [Nat.testBit_and, Nat.zero_testBit, Nat.testBit_two_pow]
    by_cases hj : i = j
    · subst hj; simp [h]
    · simp [hj]

theorem showPages_step (K : Consts) (cfg : Config) (acc : Nat) (s : ScenarioIndexEntry) :
    (if cfg.ScenarioSelectMode = K.SCENARIO_SELECT_MODE_ORIGIN then
        acc ||| (1 <<< s.SourceGame)
      else
        let category : Nat := s.Category
        let category :=
          if category > K.SCENARIO_CATEGORY_OTHER then K.SCENARIO_CATEGORY_OTHER else category
        acc ||| (1 <<< category))
      = acc ||| (1 <<< tabOf K cfg s) := by
  unfold tabOf
  by_cases hm : cfg.ScenarioSelectMode = K.SCENARIO_SELECT_MODE_ORIGIN
  · simp only [hm, if_true]
  · simp only [hm, if_false]
    by_cases hc : s.Category > K.SCENARIO_CATEGORY_OTHER
    · rw [if_pos hc, Nat.min_eq_right (Nat.le_of_lt hc)]
    · rw [if_neg hc, Nat.min_eq_left (Nat.le_of_not_lt hc)]

theorem showPages_testBit (K : Consts) (cfg : Config) (repo : List ScenarioIndexEntry)
    (i : Nat) :
    (InitTabs.showPages K cfg repo).testBit i = true ↔ ∃ s ∈ repo, tabOf K cfg s = i := by
  unfold InitTabs.showPages
  have key : ∀ (l : List ScenarioIndexEntry) (acc : Nat),
      (l.foldl (fun showPages scenario =>
          if cfg.ScenarioSelectMode = K.SCENARIO_SELECT_MODE_ORIGIN then
            showPages ||| (1 <<< scenario.SourceGame)
          else
            let category : Nat := scenario.Category
            let category :=
              if category > K.SCENARIO_CATEGORY_OTHER then K.SCENARIO_CATEGORY_OTHER
              else category
            showPages ||| (1 <<< category)) acc).testBit i = true ↔
        (acc.testBit i = true ∨ ∃ s ∈ l, tabOf K cfg s = i) := by
    intro l
    induction l with
    | nil => intro acc; simp
    | cons s l ih =>
      intro acc
      rw [List.foldl_cons, ih, showPages_step, Nat.testBit_or, Nat.one_shiftLeft,
        Nat.testBit_two_pow]
      simp only [Bool.or_eq_true, decide_eq_true_eq, List.mem_cons, exists_eq_or_imp]
      tauto
  rw [key]
  simp

theorem layout_not_mem (sp : Nat) (i : Nat) (is : List Nat) :
    ∀ st : (Nat → Widget) × Int, i ∉ is →
      (is.foldl (InitTabs.layoutStep sp) st).1 (i + WIDX_TAB1) = st.1 (i + WIDX_TAB1) := by
  induction is with
  | nil => intro st _; rfl
  | cons a r ih =>
    intro st hni
    rw [List.foldl_cons, ih _ (fun h => hni (List.mem_cons_of_mem _ h))]
    have hne : i ≠ a := fun h => hni (h ▸ List.mem_cons_self _ _)
    have hne' : ¬ i + WIDX_TAB1 = a + WIDX_TAB1 := by omega
    unfold InitTabs.layoutStep
    split <;> simp only [hne', if_false]

theorem layout_type (sp : Nat) (i : Nat) (is : List Nat) :
    ∀ st : (Nat → Widget) × Int, i ∈ is →
      ((is.foldl (InitTabs.layoutStep sp) st).1 (i + WIDX_TAB1)).type =
        if sp &&& (1 <<< i) = 0 then WindowWidgetType.Empty else WindowWidgetType.Tab := by
  induction is with
  | nil => intro st h; cases h
  | cons a r ih =>
    intro st hi
    rw [List.foldl_cons]
    by_cases hr : i ∈ r
    · exact ih _ hr
    · have hia : i = a := by
        rcases List.mem_cons.1 hi with h | h
        · exact h
        · exact absurd h hr
      subst hia
      rw [layout_not_mem sp i r _ hr]
      unfold InitTabs.layoutStep
      split <;> simp only [if_true]

theorem InitialiseListItems_congr (K : Consts) (cfg : Config) (repo : List ScenarioIndexEntry)
    (w w' : ScenarioSelectWindow) (lastTab : Int) (h : w.selected_tab = w'.selected_tab) :
    (InitialiseListItems K { cfg with ScenarioselectLastTab := lastTab } repo w)._listItems
      = (InitialiseListItems K cfg repo w')._listItems := by
  unfold InitialiseListItems
  rw [h]
  rfl

/-! ## Hover and click -/

/-- C1: a click at `y` invokes the callback exactly once, with the Path of the hit row's
scenario, when the hit row (the first row whose accumulated bottom edge is greater than `y`)
is an unlocked scenario row; it invokes nothing when the hit row is a heading or a locked
scenario or when there is no hit row, which is the case for every `y` at or past the end of
the list. -/
theorem OnScrollMouseDown_hitRow (w : ScenarioSelectWindow) (scenarioItemHeight y : Int)
    (hpos : 0 < scenarioItemHeight) :
    (OnScrollMouseDown w scenarioItemHeight y =
      match hitRow scenarioItemHeight w._listItems y with
      | some (ScenarioListItem.Scenario scenario false) => [scenario.Path]
      | some (ScenarioListItem.Scenario _ true) => []
      | some (ScenarioListItem.Heading _) => []
      | none => []) ∧
    (OnScrollGetSize scenarioItemHeight w._listItems ≤ y →
      hitRow scenarioItemHeight w._listItems y = none ∧
      OnScrollMouseDown w scenarioItemHeight y = []) := by
  have key := OnScrollMouseDown_loop_eq scenarioItemHeight w._listItems y
  refine ⟨?_, ?_⟩
  · unfold OnScrollMouseDown
    rw [key]
    generalize hitRow scenarioItemHeight w._listItems y = r
    match r with
    | none => rfl
    | some (ScenarioListItem.Heading _) => rfl
    | some (ScenarioListItem.Scenario _ true) => rfl
    | some (ScenarioListItem.Scenario _ false) => rfl
  · intro hy
    have hn := hitRow_none_of_size_le scenarioItemHeight hpos w._listItems y hy
    refine ⟨hn, ?_⟩
    unfold OnScrollMouseDown
    rw [key, hn]

/-- Witness of C1: with rows of height 18, 24, 24 a click at `y = 20` hits the unlocked
second row. -/
theorem OnScrollMouseDown_hitRow_witness :
    (0 : Int) < 24 ∧
    ((OnScrollMouseDown sampleWindow 24 20 =
      match hitRow 24 sampleWindow._listItems 20 with
      | some (ScenarioListItem.Scenario scenario false) => [scenario.Path]
      | some (ScenarioListItem.Scenario _ true) => []
      | some (ScenarioListItem.Heading _) => []
      | none => []) ∧
    (OnScrollGetSize 24 sampleWindow._listItems ≤ 20 →
      hitRow 24 sampleWindow._listItems 20 = none ∧
      OnScrollMouseDown sampleWindow 24 20 = [])) ∧
    hitRow 24 sampleWindow._listItems 20 = some (ScenarioListItem.Scenario forestFrontiers false) ∧
    OnScrollMouseDown sampleWindow 24 20 = ["ff.sc4"] :=
  ⟨by decide, OnScrollMouseDown_hitRow sampleWindow 24 20 (by decide), by decide, by decide⟩

/-- C2: after `OnScrollMouseOver` the highlighted scenario is the scenario of the row under
the cursor when that row is an unlocked scenario row and null otherwise, and the
locked-information flag is true exactly when the row under the cursor is a locked scenario
row; so a highlighted scenario always comes from an unlocked row and the two are never both
set.  The rows and the selected tab are left as they were. -/
theorem OnScrollMouseOver_hitRow (w : ScenarioSelectWindow) (scenarioItemHeight y : Int) :
    ((OnScrollMouseOver w scenarioItemHeight y)._highlightedScenario =
      match hitRow scenarioItemHeight w._listItems y with
      | some (ScenarioListItem.Scenario scenario false) => some scenario
      | some (ScenarioListItem.Scenario _ true) => none
      | some (ScenarioListItem.Heading _) => none
      | none => none) ∧
    ((OnScrollMouseOver w scenarioItemHeight y)._showLockedInformation = true ↔
      ∃ scenario, hitRow scenarioItemHeight w._listItems y
        = some (ScenarioListItem.Scenario scenario true)) ∧
    (∀ scenario, (OnScrollMouseOver w scenarioItemHeight y)._highlightedScenario = some scenario →
      hitRow scenarioItemHeight w._listItems y
        = some (ScenarioListItem.Scenario scenario false)) ∧
    ¬ ((OnScrollMouseOver w scenarioItemHeight y)._highlightedScenario ≠ none ∧
        (OnScrollMouseOver w scenarioItemHeight y)._showLockedInformation = true) ∧
    (OnScrollMouseOver w scenarioItemHeight y)._listItems = w._listItems ∧
    (OnScrollMouseOver w scenarioItemHeight y).selected_tab = w.selected_tab := by
  obtain ⟨hh, hs⟩ := OnScrollMouseOver_fields w scenarioItemHeight y
  have key := OnScrollMouseOver_loop_eq scenarioItemHeight w._listItems y
  have hframe : (OnScrollMouseOver w scenarioItemHeight y)._listItems = w._listItems ∧
      (OnScrollMouseOver w scenarioItemHeight y).selected_tab = w.selected_tab := by
    unfold OnScrollMouseOver
    simp only
    split <;> exact ⟨rfl, rfl⟩
  rw [hh, hs, key]
  refine ⟨?_, ?_, ?_, ?_, hframe⟩
  all_goals
    generalize hitRow scenarioItemHeight w._listItems y = r
    match r with
    | none => simp
    | some (ScenarioListItem.Heading _) => simp
    | some (ScenarioListItem.Scenario _ true) => simp
    | some (ScenarioListItem.Scenario _ false) => simp

/-! ## The rebuilt list -/

/-- C3: with the hide-Mega-Park setting off, the scenario rows of the list rebuilt by
`InitialiseListItems` are exactly the repository scenarios accepted by `IsScenarioVisible`,
each once and in repository order; and `IsScenarioVisible` accepts a scenario exactly when
its tab (`SourceGame` in origin mode, `Category` clamped to at most `SCENARIO_CATEGORY_OTHER`
otherwise) equals the selected tab. -/
theorem InitialiseListItems_scenarioRows (K : Consts) (cfg : Config)
    (repo : List ScenarioIndexEntry) (w : ScenarioSelectWindow)
    (hide : cfg.ScenarioHideMegaPark = false) :
    scenarioRows (InitialiseListItems K cfg repo w)._listItems =
      repo.filter (IsScenarioVisible K cfg w.selected_tab) ∧
    (∀ scenario, IsScenarioVisible K cfg w.selected_tab scenario = true ↔
      (if cfg.ScenarioSelectMode = K.SCENARIO_SELECT_MODE_ORIGIN then
          (scenario.SourceGame : Int) = w.selected_tab
        else ((min scenario.Category K.SCENARIO_CATEGORY_OTHER : Nat) : Int) = w.selected_tab)) := by
  constructor
  · unfold InitialiseListItems InitialiseListItems.megaPark
    simp only [hide, Bool.false_eq_true, and_false, if_false]
    split
    · exact loop_scenarioRows K cfg w.selected_tab repo
    · rw [setIsLocked_scenarioRows]
      exact loop_scenarioRows K cfg w.selected_tab repo
  · intro scenario
    rw [IsScenarioVisible_iff]
    unfold tabOf
    by_cases hm : cfg.ScenarioSelectMode = K.SCENARIO_SELECT_MODE_ORIGIN <;> simp [hm]

/-- Witness of C3: on tab 0 of a repository with an RCT2 scenario in the middle, the rows
are the three RCT1 scenarios in repository order. -/
theorem InitialiseListItems_scenarioRows_witness :
    sampleConfig.ScenarioHideMegaPark = false ∧
    scenarioRows (InitialiseListItems sampleConsts sampleConfig
        [forestFrontiers, crazyCastle, dynamiteDunes, megaPark] sampleWindow)._listItems
      = [forestFrontiers, dynamiteDunes, megaPark] :=
  ⟨rfl, by
    rw [(InitialiseListItems_scenarioRows sampleConsts sampleConfig
      [forestFrontiers, crazyCastle, dynamiteDunes, megaPark] sampleWindow rfl).1]
    decide⟩

/-- C4: when locking is enabled (origin mode, unlocking enabled, selected tab below 6) and no
visible scenario is Mega Park, a scenario row of the rebuilt list is locked if and only if at
least `InitialNumUnlockedScenarios` (5) of the scenario rows strictly before it have no
highscore; hence a scenario row with fewer than five scenario rows before it is never locked,
and every scenario row after a locked row is locked. -/
theorem InitialiseListItems_lock_counting (K : Consts) (cfg : Config)
    (repo : List ScenarioIndexEntry) (w : ScenarioSelectWindow)
    (hmode : cfg.ScenarioSelectMode = K.SCENARIO_SELECT_MODE_ORIGIN)
    (hunlocking : cfg.ScenarioUnlockingEnabled = true) (htab : w.selected_tab < 6)
    (hmega : ∀ s ∈ repo, IsScenarioVisible K cfg w.selected_tab s = true →
      s.ScenarioId ≠ K.SC_MEGA_PARK) :
    IsLockingEnabled K cfg w.selected_tab = true ∧
    InitialNumUnlockedScenarios = 5 ∧
    (∀ i scenario is_locked,
      (InitialiseListItems K cfg repo w)._listItems[i]?
          = some (ScenarioListItem.Scenario scenario is_locked) →
      (is_locked = true ↔
        5 ≤ noHighscoreCount ((InitialiseListItems K cfg repo w)._listItems.take i))) ∧
    (∀ i scenario is_locked,
      (InitialiseListItems K cfg repo w)._listItems[i]?
          = some (ScenarioListItem.Scenario scenario is_locked) →
      (scenarioRows ((InitialiseListItems K cfg repo w)._listItems.take i)).length < 5 →
      is_locked = false) ∧
    (∀ (i j : Nat) scenario scenario' is_locked, i < j →
      (InitialiseListItems K cfg repo w)._listItems[i]?
          = some (ScenarioListItem.Scenario scenario true) →
      (InitialiseListItems K cfg repo w)._listItems[j]?
          = some (ScenarioListItem.Scenario scenario' is_locked) →
      is_locked = true) := by
  have hl : IsLockingEnabled K cfg w.selected_tab = true :=
    (IsLockingEnabled_iff K cfg w.selected_tab).2 ⟨hmode, hunlocking, htab⟩
  obtain ⟨hnone, _, hcounted⟩ := LockInv_loop K cfg w.selected_tab repo hl hmega
  have hitems : (InitialiseListItems K cfg repo w)._listItems
      = (InitialiseListItems.loop K cfg w.selected_tab repo)._listItems := by
    unfold InitialiseListItems
    exact megaPark_of_none K cfg _ hnone
  rw [hitems]
  generalize (InitialiseListItems.loop K cfg w.selected_tab repo)._listItems = items at hcounted
  have hmain : ∀ i scenario is_locked,
      items[i]? = some (ScenarioListItem.Scenario scenario is_locked) →
      (is_locked = true ↔ 5 ≤ noHighscoreCount (items.take i)) := by
    intro i sc b hget
    rw [hcounted i sc b hget]
    simp only [InitialNumUnlockedScenarios]
    omega
  refine ⟨hl, rfl, hmain, ?_, ?_⟩
  · intro i sc b hget hlen
    have hle := noHighscoreCount_le_scenarioRows (items.take i)
    cases b with
    | false => rfl
    | true =>
      have := (hmain i sc true hget).1 rfl
      omega
  · intro i j sc sc' b hij hi hj
    have h5 := (hmain i sc true hi).1 rfl
    have hmono : noHighscoreCount (items.take i) ≤ noHighscoreCount (items.take j) :=
      List.Sublist.countP_le hasNoHighscore
        (List.take_sublist_take_left items (Nat.le_of_lt hij))
    exact (hmain j sc' b hj).2 (by omega)

/-- Witness of C4: with six uncompleted scenarios in front, the sixth scenario row (list
index 6, after the heading) is locked, five rows without a highscore being before it. -/
theorem InitialiseListItems_lock_counting_witness :
    sampleConfig.ScenarioSelectMode = sampleConsts.SCENARIO_SELECT_MODE_ORIGIN ∧
    sampleConfig.ScenarioUnlockingEnabled = true ∧ sampleWindow.selected_tab < 6 ∧
    (∀ s ∈ List.replicate 6 dynamiteDunes ++ [forestFrontiers],
      IsScenarioVisible sampleConsts sampleConfig sampleWindow.selected_tab s = true →
      s.ScenarioId ≠ sampleConsts.SC_MEGA_PARK) ∧
    (InitialiseListItems sampleConsts sampleConfig
        (List.replicate 6 dynamiteDunes ++ [forestFrontiers]) sampleWindow)._listItems[6]?
      = some (ScenarioListItem.Scenario dynamiteDunes true) ∧
    5 ≤ noHighscoreCount ((InitialiseListItems sampleConsts sampleConfig
        (List.replicate 6 dynamiteDunes ++ [forestFrontiers]) sampleWindow)._listItems.take 6) :=
  ⟨rfl, rfl, by decide, by decide, by decide,
    ((InitialiseListItems_lock_counting sampleConsts sampleConfig
      (List.replicate 6 dynamiteDunes ++ [forestFrontiers]) sampleWindow rfl rfl (by decide)
      (by decide)).2.2.1 6 dynamiteDunes true (by decide)).1 rfl⟩

/-- C5: when locking is not enabled (the select mode is not origin mode, or unlocking is
disabled, or the selected tab is 6 or higher), `InitialiseListItems` removes no row (the list
is the one the loop built and its scenario rows are all visible scenarios) and every scenario
row has `is_locked = false`. -/
theorem InitialiseListItems_not_locking (K : Consts) (cfg : Config)
    (repo : List ScenarioIndexEntry) (w : ScenarioSelectWindow)
    (hoff : cfg.ScenarioSelectMode ≠ K.SCENARIO_SELECT_MODE_ORIGIN ∨
      cfg.ScenarioUnlockingEnabled = false ∨ 6 ≤ w.selected_tab) :
    IsLockingEnabled K cfg w.selected_tab = false ∧
    (InitialiseListItems K cfg repo w)._listItems
      = (InitialiseListItems.loop K cfg w.selected_tab repo)._listItems ∧
    scenarioRows (InitialiseListItems K cfg repo w)._listItems
      = repo.filter (IsScenarioVisible K cfg w.selected_tab) ∧
    (∀ scenario is_locked,
      ScenarioListItem.Scenario scenario is_locked ∈ (InitialiseListItems K cfg repo w)._listItems →
      is_locked = false) := by
  have hl : IsLockingEnabled K cfg w.selected_tab = false := by
    cases h : IsLockingEnabled K cfg w.selected_tab
    · rfl
    · obtain ⟨h1, h2, h3⟩ := (IsLockingEnabled_iff K cfg w.selected_tab).1 h
      rcases hoff with h' | h' | h'
      · exact absurd h1 h'
      · rw [h2] at h'; cases h'
      · omega
  obtain ⟨hnone, hun⟩ := unlocked_loop K cfg w.selected_tab repo hl
  have hitems : (InitialiseListItems K cfg repo w)._listItems
      = (InitialiseListItems.loop K cfg w.selected_tab repo)._listItems := by
    unfold InitialiseListItems
    exact megaPark_of_none K cfg _ hnone
  refine ⟨hl, hitems, ?_, ?_⟩
  · rw [hitems]
    exact loop_scenarioRows K cfg w.selected_tab repo
  · rw [hitems]
    exact hun

/-- Witness of C5: with unlocking disabled no row of the rebuilt list is locked, Mega Park
and six uncompleted scenarios notwithstanding. -/
theorem InitialiseListItems_not_locking_witness :
    (sampleConfigNoLock.ScenarioSelectMode ≠ sampleConsts.SCENARIO_SELECT_MODE_ORIGIN ∨
      sampleConfigNoLock.ScenarioUnlockingEnabled = false ∨ 6 ≤ sampleWindow.selected_tab) ∧
    ∀ scenario is_locked,
      ScenarioListItem.Scenario scenario is_locked ∈
        (InitialiseListItems sampleConsts sampleConfigNoLock
          (List.replicate 6 dynamiteDunes ++ [megaPark]) sampleWindow)._listItems →
      is_locked = false :=
  ⟨Or.inr (Or.inl rfl),
    (InitialiseListItems_not_locking sampleConsts sampleConfigNoLock
      (List.replicate 6 dynamiteDunes ++ [megaPark]) sampleWindow (Or.inr (Or.inl rfl))).2.2.2⟩

/-- C6 (evaluation at the failing inputs): the Mega Park reference is taken before the Mega
Park row is appended, so it designates the item in front of it.  With one completed scenario
and Mega Park in a category of its own, the store lands on the heading and the Mega Park row
stays unlocked although the RCT1 scenarios are not all completed; with Mega Park in the
category of its neighbour, the store locks the completed neighbour instead. -/
theorem InitialiseListItems_megaPark_reference_eval :
    (InitialiseListItems.loop sampleConsts sampleConfig 0
        [forestFrontiers, megaPark]).megaParkListItemIndex = some 2 ∧
    (InitialiseListItems sampleConsts sampleConfig [forestFrontiers, megaPark]
        sampleWindow)._listItems =
      [ScenarioListItem.Heading 100, ScenarioListItem.Scenario forestFrontiers false,
       ScenarioListItem.Heading 104, ScenarioListItem.Scenario megaPark false] ∧
    (InitialiseListItems sampleConsts sampleConfig [forestFrontiers, megaParkUngrouped]
        sampleWindow)._listItems =
      [ScenarioListItem.Heading 100, ScenarioListItem.Scenario forestFrontiers true,
       ScenarioListItem.Scenario megaParkUngrouped false] := by
  refine ⟨?_, ?_, ?_⟩ <;> decide

/-- C7 (evaluation at the failing input): "Remove mega park" pops the last row.  With Mega
Park locked, the hide setting on and another visible scenario after Mega Park, the row of
that scenario is removed and the Mega Park row stays in the list. -/
theorem InitialiseListItems_hide_megaPark_eval :
    IsLockingEnabled sampleConsts sampleConfigHide sampleWindow.selected_tab = true ∧
    sampleConfigHide.ScenarioHideMegaPark = true ∧
    [megaPark, dynamiteDunes].filter
        (IsScenarioVisible sampleConsts sampleConfigHide sampleWindow.selected_tab)
      = [megaPark, dynamiteDunes] ∧
    (InitialiseListItems sampleConsts sampleConfigHide [megaPark, dynamiteDunes]
        sampleWindow)._listItems =
      [ScenarioListItem.Heading 104, ScenarioListItem.Scenario megaPark false] := by
  refine ⟨?_, ?_, ?_, ?_⟩ <;> decide

/-- C10: in the list produced by `InitialiseListItems` every heading row is immediately
followed by a scenario row; so the list never ends with a heading and never has two adjacent
headings, whether or not Mega Park was removed. -/
theorem InitialiseListItems_no_empty_headings (K : Consts) (cfg : Config)
    (repo : List ScenarioIndexEntry) (w : ScenarioSelectWindow) :
    (∀ i string_id,
      (InitialiseListItems K cfg repo w)._listItems[i]?
          = some (ScenarioListItem.Heading string_id) →
      ∃ scenario is_locked, (InitialiseListItems K cfg repo w)._listItems[i + 1]?
          = some (ScenarioListItem.Scenario scenario is_locked)) ∧
    (∀ string_id, (InitialiseListItems K cfg repo w)._listItems.getLast?
        ≠ some (ScenarioListItem.Heading string_id)) ∧
    (∀ i string_id string_id',
      ¬ ((InitialiseListItems K cfg repo w)._listItems[i]?
            = some (ScenarioListItem.Heading string_id) ∧
         (InitialiseListItems K cfg repo w)._listItems[i + 1]?
            = some (ScenarioListItem.Heading string_id'))) := by
  have h : HeadingsFollowed (InitialiseListItems K cfg repo w)._listItems :=
    megaPark_HeadingsFollowed K cfg _ (loop_HeadingsFollowed K cfg w.selected_tab repo)
  generalize (InitialiseListItems K cfg repo w)._listItems = items at h
  refine ⟨h, ?_, ?_⟩
  · intro sid hlast
    rw [List.getLast?_eq_getElem?] at hlast
    obtain ⟨sc, b, hn⟩ := h _ sid hlast
    have hlen : items.length ≠ 0 := by
      intro h0
      rw [List.getElem?_eq_none (by omega)] at hlast
      cases hlast
    rw [List.getElem?_eq_none (by omega)] at hn
    cases hn
  · rintro i sid sid' ⟨h1, h2⟩
    obtain ⟨sc, b, hn⟩ := h i sid h1
    rw [hn] at h2
    cases h2

/-! ## Tabs -/

/-- C8: for a repository whose scenarios map to tab numbers 0..9 and a tab `i` in 0..9, the
tab widget `i` is of type `Tab` after `InitTabs` if and only if some repository scenario
belongs to tab `i` (`SourceGame` in origin mode, `Category` clamped to at most
`SCENARIO_CATEGORY_OTHER` otherwise), and of type `Empty` otherwise; and a scenario belongs to
tab `i` exactly when `IsScenarioVisible` accepts it with `selected_tab = i`.  For such a
repository `showPages` stays below `2 ^ 10`, so its 32 bit arithmetic is exact. -/
theorem InitTabs_tab_visibility (K : Consts) (cfg : Config) (repo : List ScenarioIndexEntry)
    (w : ScenarioSelectWindow) (widgets : Nat → Widget)
    (hrange : ∀ s ∈ repo,
      (if cfg.ScenarioSelectMode = K.SCENARIO_SELECT_MODE_ORIGIN then s.SourceGame
        else min s.Category K.SCENARIO_CATEGORY_OTHER) ≤ 9)
    (i : Nat) (hi : i ≤ 9) :
    (((InitTabs K cfg repo w widgets).2 (i + WIDX_TAB1)).type = WindowWidgetType.Tab ↔
      ∃ s ∈ repo,
        (if cfg.ScenarioSelectMode = K.SCENARIO_SELECT_MODE_ORIGIN then s.SourceGame
          else min s.Category K.SCENARIO_CATEGORY_OTHER) = i) ∧
    (((InitTabs K cfg repo w widgets).2 (i + WIDX_TAB1)).type = WindowWidgetType.Empty ↔
      ¬ ∃ s ∈ repo,
        (if cfg.ScenarioSelectMode = K.SCENARIO_SELECT_MODE_ORIGIN then s.SourceGame
          else min s.Category K.SCENARIO_CATEGORY_OTHER) = i) ∧
    (((InitTabs K cfg repo w widgets).2 (i + WIDX_TAB1)).type = WindowWidgetType.Tab ↔
      ∃ s ∈ repo, IsScenarioVisible K cfg (i : Int) s = true) ∧
    InitTabs.showPages K cfg repo < 2 ^ 10 := by
  have hsmall : InitTabs.showPages K cfg repo < 2 ^ 10 := by
    apply Nat.lt_pow_two_of_testBit
    intro j hj
    cases hb : (InitTabs.showPages K cfg repo).testBit j
    · rfl
    · obtain ⟨s, hs, ht⟩ := (showPages_testBit K cfg repo j).1 hb
      have := hrange s hs
      unfold tabOf at ht
      omega
  have hmem : i ∈ List.range NumTabs := by
    rw [List.mem_range]
    unfold NumTabs
    omega
  have htype : ((InitTabs K cfg repo w widgets).2 (i + WIDX_TAB1)).type =
      if InitTabs.showPages K cfg repo &&& (1 <<< i) = 0 then WindowWidgetType.Empty
      else WindowWidgetType.Tab := by
    unfold InitTabs
    exact layout_type _ i _ _ hmem
  have hbit := showPages_testBit K cfg repo i
  have hvis : (∃ s ∈ repo, tabOf K cfg s = i) ↔
      ∃ s ∈ repo, IsScenarioVisible K cfg (i : Int) s = true := by
    constructor
    · rintro ⟨s, hs, ht⟩
      exact ⟨s, hs, (IsScenarioVisible_iff K cfg i s).2 (by rw [ht])⟩
    · rintro ⟨s, hs, hv⟩
      exact ⟨s, hs, by exact_mod_cast (IsScenarioVisible_iff K cfg i s).1 hv⟩
  rw [htype]
  have hcases : (InitTabs.showPages K cfg repo &&& (1 <<< i) = 0 ∧
        ¬ (∃ s ∈ repo, tabOf K cfg s = i)) ∨
      (¬ InitTabs.showPages K cfg repo &&& (1 <<< i) = 0 ∧ ∃ s ∈ repo, tabOf K cfg s = i) := by
    by_cases hz : InitTabs.showPages K cfg repo &&& (1 <<< i) = 0
    · left
      refine ⟨hz, ?_⟩
      rw [← hbit, (and_one_shiftLeft_eq_zero _ _).1 hz]
      simp
    · right
      refine ⟨hz, ?_⟩
      rw [← hbit]
      have := (and_one_shiftLeft_eq_zero (InitTabs.showPages K cfg repo) i).not.1 hz
      simpa using this
  rcases hcases with ⟨hz, hf⟩ | ⟨hz, ht⟩
  · have hf' : ¬ ∃ s ∈ repo, IsScenarioVisible K cfg (i : Int) s = true := fun h => hf (hvis.2 h)
    simp only [tabOf] at hf
    refine ⟨?_, ?_, ?_, hsmall⟩
    · simp [hz, hf]
    · simp [hz, hf]
    · simp [hz, hf']
  · have ht' : ∃ s ∈ repo, IsScenarioVisible K cfg (i : Int) s = true := hvis.1 ht
    simp only [tabOf] at ht
    refine ⟨?_, ?_, ?_, hsmall⟩
    · simp [hz, ht]
    · simp [hz, ht]
    · simp [hz, ht']

/-- Witness of C8: a repository with RCT1 scenarios and one RCT2 scenario shows tab 3. -/
theorem InitTabs_tab_visibility_witness :
    (∀ s ∈ [forestFrontiers, crazyCastle],
      (if sampleConfig.ScenarioSelectMode = sampleConsts.SCENARIO_SELECT_MODE_ORIGIN
        then s.SourceGame else min s.Category sampleConsts.SCENARIO_CATEGORY_OTHER) ≤ 9) ∧
    (3 : Nat) ≤ 9 ∧
    ((InitTabs sampleConsts sampleConfig [forestFrontiers, crazyCastle] sampleWindow
        (fun _ => { type := WindowWidgetType.Tab, top := 0, bottom := 0 })).2
          (3 + WIDX_TAB1)).type = WindowWidgetType.Tab :=
  ⟨by decide, by decide,
    (InitTabs_tab_visibility sampleConsts sampleConfig [forestFrontiers, crazyCastle]
      sampleWindow (fun _ => { type := WindowWidgetType.Tab, top := 0, bottom := 0 })
      (by decide) 3 (by decide)).1.2 ⟨crazyCastle, by decide, by decide⟩⟩

/-- C9: `OnMouseDown` on a tab widget (`WIDX_TAB1 .. WIDX_TAB10`) sets `selected_tab` to
`widgetIndex - WIDX_TAB1`, writes that value to the last-tab setting and nothing else of the
configuration, clears the highlighted scenario, and leaves the row list equal to what
`InitialiseListItems` builds for the new tab; with any other widget index the configuration
and the window are unchanged. -/
theorem OnMouseDown_changes_tab (K : Consts) (repo : List ScenarioIndexEntry) (cfg : Config)
    (w : ScenarioSelectWindow) (widgetIndex : Int) :
    (((WIDX_TAB1 : Int) ≤ widgetIndex ∧ widgetIndex ≤ (WIDX_TAB10 : Int)) →
      (OnMouseDown K repo cfg w widgetIndex).2.selected_tab = widgetIndex - (WIDX_TAB1 : Int) ∧
      (OnMouseDown K repo cfg w widgetIndex).1 =
        { cfg with ScenarioselectLastTab := widgetIndex - (WIDX_TAB1 : Int) } ∧
      (OnMouseDown K repo cfg w widgetIndex).2._highlightedScenario = none ∧
      (OnMouseDown K repo cfg w widgetIndex).2._showLockedInformation
        = w._showLockedInformation ∧
      (OnMouseDown K repo cfg w widgetIndex).2._listItems =
        (InitialiseListItems K cfg repo
          { w with selected_tab := widgetIndex - (WIDX_TAB1 : Int) })._listItems ∧
      (OnMouseDown K repo cfg w widgetIndex).2._listItems =
        (InitialiseListItems K (OnMouseDown K repo cfg w widgetIndex).1 repo
          (OnMouseDown K repo cfg w widgetIndex).2)._listItems) ∧
    (¬ ((WIDX_TAB1 : Int) ≤ widgetIndex ∧ widgetIndex ≤ (WIDX_TAB10 : Int)) →
      OnMouseDown K repo cfg w widgetIndex = (cfg, w)) := by
  constructor
  · intro hr
    have hr' : widgetIndex ≥ (WIDX_TAB1 : Int) ∧ widgetIndex ≤ (WIDX_TAB10 : Int) := hr
    unfold OnMouseDown
    rw [if_pos hr']
    refine ⟨rfl, rfl, rfl, rfl, ?_, ?_⟩
    · exact InitialiseListItems_congr K cfg repo _ _ _ rfl
    · rfl
  · intro hr
    have hr' : ¬ (widgetIndex ≥ (WIDX_TAB1 : Int) ∧ widgetIndex ≤ (WIDX_TAB10 : Int)) := hr
    unfold OnMouseDown
    rw [if_neg hr']

/-! ## Lemmas on drawing -/

theorem drawnName_eq (highscore : ScenarioHighscoreEntry) :
    (if highscore.name.isEmpty = false then highscore.name else "???")
      = completedByName highscore := by
  unfold completedByName
  by_cases he : highscore.name = ""
  · have hb : highscore.name.isEmpty = true := (String.isEmpty_iff _).2 he
    rw [if_pos he, if_neg (by rw [hb]; decide)]
  · have hb : highscore.name.isEmpty = false := by
      cases hb : highscore.name.isEmpty
      · rfl
      · exact absurd ((String.isEmpty_iff _).1 hb) he
    rw [if_neg he, if_pos hb]

/-- What the calls made for one scenario row say about completion. -/
theorem rowOps_completion (scenario : ScenarioIndexEntry) (pre : List DrawOp) (y y' : Int)
    (hpre : ∀ op ∈ pre, (∀ z, op ≠ DrawOp.CompletionTick z) ∧ ∀ z n, op ≠ DrawOp.CompletedBy z n) :
    ((∃ z, DrawOp.CompletionTick z ∈ pre ++
        (match scenario.Highscore with
          | none => []
          | some highscore =>
            [DrawOp.CompletionTick y,
             DrawOp.CompletedBy y'
               (if highscore.name.isEmpty = false then highscore.name else "???")]))
      ↔ scenario.Highscore ≠ none) ∧
    ((∃ z n, DrawOp.CompletedBy z n ∈ pre ++
        (match scenario.Highscore with
          | none => []
          | some highscore =>
            [DrawOp.CompletionTick y,
             DrawOp.CompletedBy y'
               (if highscore.name.isEmpty = false then highscore.name else "???")]))
      ↔ scenario.Highscore ≠ none) ∧
    (∀ z n, DrawOp.CompletedBy z n ∈ pre ++
        (match scenario.Highscore with
          | none => []
          | some highscore =>
            [DrawOp.CompletionTick y,
             DrawOp.CompletedBy y'
               (if highscore.name.isEmpty = false then highscore.name else "???")]) →
      ∃ highscore, scenario.Highscore = some highscore ∧ n = completedByName highscore) := by
  cases hh : scenario.Highscore with
  | none =>
    simp only [List.append_nil, ne_eq, not_true_eq_false, iff_false, not_exists]
    refine ⟨fun z hz => (hpre _ hz).1 z rfl, fun z n hz => (hpre _ hz).2 z n rfl, ?_⟩
    intro z n hz
    exact absurd rfl ((hpre _ hz).2 z n)
  | some highscore =>
    dsimp only
    rw [drawnName_eq]
    refine ⟨⟨fun _ => by simp, fun _ => ⟨y, by simp⟩⟩,
      ⟨fun _ => by simp, fun _ => ⟨y', completedByName highscore, by simp⟩⟩, ?_⟩
    intro z n hz
    simp only [List.mem_append, List.mem_cons, List.mem_singleton, DrawOp.CompletedBy.injEq,
      List.mem_nil_iff, or_false] at hz
    rcases hz with hz | hz | hz
    · exact absurd rfl ((hpre _ hz).2 z n)
    · cases hz
    · exact ⟨highscore, rfl, hz.2⟩

theorem OnScrollDraw_loop_length (highlighted : Option ScenarioIndexEntry)
    (dpi_y dpi_height h titleH : Int) (items : List ScenarioListItem) :
    ∀ y : Int, (OnScrollDraw.loop highlighted dpi_y dpi_height h titleH items y).length
      = items.length := by
  induction items with
  | nil => intro y; rfl
  | cons a items ih =>
    intro y
    cases a with
    | Heading sid =>
      simp only [OnScrollDraw.loop]
      split <;> simp [ih]
    | Scenario sc b =>
      simp only [OnScrollDraw.loop]
      split <;> simp [ih]

theorem OnScrollDraw_loop_row (highlighted : Option ScenarioIndexEntry)
    (dpi_y dpi_height h titleH : Int) (items : List ScenarioListItem) :
    ∀ (y : Int) (i : Nat) (scenario : ScenarioIndexEntry) (is_locked : Bool)
      (ops : List DrawOp),
      items[i]? = some (ScenarioListItem.Scenario scenario is_locked) →
      (OnScrollDraw.loop highlighted dpi_y dpi_height h titleH items y)[i]? = some ops →
      ops ≠ [] →
      ((∃ z, DrawOp.CompletionTick z ∈ ops) ↔ scenario.Highscore ≠ none) ∧
      ((∃ z n, DrawOp.CompletedBy z n ∈ ops) ↔ scenario.Highscore ≠ none) ∧
      (∀ z n, DrawOp.CompletedBy z n ∈ ops →
        ∃ highscore, scenario.Highscore = some highscore ∧ n = completedByName highscore) := by
  induction items with
  | nil => intro y i sc b ops hi; simp at hi
  | cons a items ih =>
    intro y i sc b ops hi hops hne
    cases i with
    | succ i =>
      simp only [List.getElem?_cons_succ] at hi
      cases a with
      | Heading sid =>
        simp only [OnScrollDraw.loop] at hops
        split at hops <;>
          (simp only [List.getElem?_cons_succ] at hops; exact ih _ i sc b ops hi hops hne)
      | Scenario sc' b' =>
        simp only [OnScrollDraw.loop] at hops
        split at hops <;>
          (simp only [List.getElem?_cons_succ] at hops; exact ih _ i sc b ops hi hops hne)
    | zero =>
      simp only [List.getElem?_cons_zero, Option.some.injEq] at hi
      subst hi
      simp only [OnScrollDraw.loop] at hops
      split at hops
      · simp only [List.getElem?_cons_zero, Option.some.injEq] at hops
        exact absurd hops.symm hne
      · simp only [List.getElem?_cons_zero, Option.some.injEq] at hops
        subst hops
        apply rowOps_completion
        intro op hop
        simp only [List.mem_append, List.mem_singleton] at hop
        rcases hop with hop | hop
        · split at hop
          · simp only [List.mem_singleton] at hop
            subst hop
            exact ⟨fun z hz => (by cases hz), fun z n hz => (by cases hz)⟩
          · cases hop
        · subst hop
          exact ⟨fun z hz => (by cases hz), fun z n hz => (by cases hz)⟩

/-! ## Lemmas on the tab choice and layout -/

theorem find?_range (p : Nat → Bool) :
    ∀ n : Nat,
      (∀ i, (List.range n).find? p = some i → p i = true ∧ i < n ∧ ∀ j < i, p j = false) ∧
      ((List.range n).find? p = none → ∀ j < n, p j = false) := by
  intro n
  induction n with
  | zero =>
    refine ⟨fun i h => by simp at h, fun _ j hj => by omega⟩
  | succ n ih =>
    rw [List.range_succ, List.find?_append, List.find?_singleton]
    cases hf : (List.range n).find? p with
    | some k =>
      obtain ⟨h1, h2, h3⟩ := ih.1 k hf
      refine ⟨?_, fun h => by simp at h⟩
      intro i hi
      simp only [Option.or_some, Option.some.injEq] at hi
      subst hi
      exact ⟨h1, by omega, h3⟩
    | none =>
      have hnone := ih.2 hf
      rw [Option.none_or]
      by_cases hp : p n = true
      · rw [if_pos hp]
        refine ⟨fun i hi => ?_, fun h => by cases h⟩
        simp only [Option.some.injEq] at hi
        subst hi
        exact ⟨hp, by omega, hnone⟩
      · rw [if_neg hp]
        refine ⟨fun i hi => (by cases hi), fun _ j hj => ?_⟩
        rcases Nat.lt_succ_iff_lt_or_eq.1 hj with h | h
        · exact hnone j h
        · subst h
          simpa using hp

theorem UtilBitScanForward_zero : UtilBitScanForward 0 = -1 := by
  decide

theorem UtilBitScanForward_lowest (x : Nat) (hx : x ≠ 0) (hlt : x < 2 ^ 32) :
    ∃ i : Nat, UtilBitScanForward x = (i : Int) ∧ x.testBit i = true ∧
      ∀ j < i, x.testBit j = false := by
  unfold UtilBitScanForward
  cases hf : (List.range 32).find? (fun i => x.testBit i) with
  | some i =>
    obtain ⟨h1, _, h3⟩ := (find?_range (fun i => x.testBit i) 32).1 i hf
    exact ⟨i, rfl, h1, h3⟩
  | none =>
    exfalso
    have hnone := (find?_range (fun i => x.testBit i) 32).2 hf
    apply hx
    apply Nat.eq_of_testBit_eq
    intro j
    rw [Nat.zero_testBit]
    by_cases hj : j < 32
    · exact hnone j hj
    · apply Nat.testBit_lt_two_pow
      calc x < 2 ^ 32 := hlt
        _ ≤ 2 ^ j := Nat.pow_le_pow_right (by decide) (by omega)

theorem showPages_lt (K : Consts) (cfg : Config) (repo : List ScenarioIndexEntry)
    (hrange : ∀ s ∈ repo, tabOf K cfg s ≤ 9) : InitTabs.showPages K cfg repo < 2 ^ 10 := by
  apply Nat.lt_pow_two_of_testBit
  intro j hj
  cases hb : (InitTabs.showPages K cfg repo).testBit j
  · rfl
  · obtain ⟨s, hs, ht⟩ := (showPages_testBit K cfg repo j).1 hb
    have := hrange s hs
    omega

theorem layout_range (sp : Nat) (widgets : Nat → Widget) :
    ∀ n : Nat,
      ((List.range n).foldl (InitTabs.layoutStep sp) (widgets, TabsStart)).2 =
        TabsStart + TabHeight *
          (((List.range n).filter (fun j => decide (sp &&& (1 <<< j) ≠ 0))).length : Int) ∧
      (∀ i < n, sp &&& (1 <<< i) ≠ 0 →
        ((List.range n).foldl (InitTabs.layoutStep sp) (widgets, TabsStart)).1 (i + WIDX_TAB1) =
          { type := WindowWidgetType.Tab,
            top := TabsStart + TabHeight *
              (((List.range i).filter (fun j => decide (sp &&& (1 <<< j) ≠ 0))).length : Int),
            bottom := TabsStart + TabHeight *
              (((List.range i).filter (fun j => decide (sp &&& (1 <<< j) ≠ 0))).length : Int)
              + (TabHeight - 1) }) ∧
      (∀ i < n, sp &&& (1 <<< i) = 0 →
        ((List.range n).foldl (InitTabs.layoutStep sp) (widgets, TabsStart)).1 (i + WIDX_TAB1) =
          { widgets (i + WIDX_TAB1) with type := WindowWidgetType.Empty }) ∧
      (∀ i, n ≤ i →
        ((List.range n).foldl (InitTabs.layoutStep sp) (widgets, TabsStart)).1 (i + WIDX_TAB1) =
          widgets (i + WIDX_TAB1)) := by
  intro n
  induction n with
  | zero =>
    refine ⟨by simp, fun i hi => by omega, fun i hi => by omega, fun i _ => rfl⟩
  | succ n ih =>
    obtain ⟨hy, hshown, hhidden, hrest⟩ := ih
    rw [List.range_succ, List.foldl_append, List.foldl_cons, List.foldl_nil]
    generalize hst : (List.range n).foldl (InitTabs.layoutStep sp) (widgets, TabsStart) = st
      at hy hshown hhidden hrest
    by_cases hz : sp &&& (1 <<< n) = 0
    · have hstep : InitTabs.layoutStep sp st n =
          (fun j => if j = n + WIDX_TAB1 then
              { st.1 j with type := WindowWidgetType.Empty } else st.1 j, st.2) := by
        unfold InitTabs.layoutStep
        rw [if_pos hz]
      rw [hstep]
      refine ⟨?_, ?_, ?_, ?_⟩
      · simp only [List.filter_append, List.length_append]
        simp [hz, hy]
      · intro i hi hs
        have hne : i ≠ n := fun h => hs (h ▸ hz)
        have hne' : ¬ i + WIDX_TAB1 = n + WIDX_TAB1 := by omega
        simp only [hne', if_false]
        exact hshown i (by omega) hs
      · intro i hi hs
        by_cases hin : i = n
        · subst hin
          simp only [if_true]
          rw [hrest i (Nat.le_refl _)]
        · have hne' : ¬ i + WIDX_TAB1 = n + WIDX_TAB1 := by omega
          simp only [hne', if_false]
          exact hhidden i (by omega) hs
      · intro i hi
        have hne' : ¬ i + WIDX_TAB1 = n + WIDX_TAB1 := by omega
        simp only [hne', if_false]
        exact hrest i (by omega)
    · have hstep : InitTabs.layoutStep sp st n =
          (fun j => if j = n + WIDX_TAB1 then
              { type := WindowWidgetType.Tab, top := st.2, bottom := st.2 + (TabHeight - 1) }
            else st.1 j, st.2 + TabHeight) := by
        unfold InitTabs.layoutStep
        rw [if_neg hz]
      rw [hstep]
      refine ⟨?_, ?_, ?_, ?_⟩
      · simp only [List.filter_append, List.length_append]
        simp only [hz, ne_eq, not_false_eq_true, decide_True, List.filter_cons_of_pos,
          List.filter_nil, List.length_singleton, hy, Nat.cast_add, Nat.cast_one, TabHeight]
        omega
      · intro i hi hs
        by_cases hin : i = n
        · subst hin
          simp only [if_true, hy]
        · have hne' : ¬ i + WIDX_TAB1 = n + WIDX_TAB1 := by omega
          simp only [hne', if_false]
          exact hshown i (by omega) hs
      · intro i hi hs
        have hne : i ≠ n := fun h => hz (h ▸ hs)
        have hne' : ¬ i + WIDX_TAB1 = n + WIDX_TAB1 := by omega
        simp only [hne', if_false]
        exact hhidden i (by omega) hs
      · intro i hi
        have hne' : ¬ i + WIDX_TAB1 = n + WIDX_TAB1 := by omega
        simp only [hne', if_false]
        exact hrest i (by omega)

theorem shownBefore_eq (sp : Nat) (widgets : Nat → Widget) (i : Nat) (hi : i ≤ NumTabs) :
    shownBefore ((List.range NumTabs).foldl (InitTabs.layoutStep sp) (widgets, TabsStart)).1 i
      = ((List.range i).filter (fun j => decide (sp &&& (1 <<< j) ≠ 0))).length := by
  unfold shownBefore
  congr 1
  apply List.filter_congr
  intro j hj
  have hj' : j ∈ List.range NumTabs := by
    rw [List.mem_range] at hj ⊢
    omega
  rw [layout_type sp j _ _ hj']
  by_cases hz : sp &&& (1 <<< j) = 0 <;> simp [hz]

theorem showPages_nil (K : Consts) (cfg : Config) : InitTabs.showPages K cfg [] = 0 := rfl

theorem lastTab_test_iff (K : Consts) (cfg : Config) (repo : List ScenarioIndexEntry)
    (lastTab : Int) (h0 : 0 ≤ lastTab) :
    (0 ≤ lastTab ∧ InitTabs.showPages K cfg repo &&& (1 <<< lastTab.toNat) ≠ 0) ↔
      ∃ s ∈ repo, (tabOf K cfg s : Int) = lastTab := by
  have hcast : ((lastTab.toNat : Nat) : Int) = lastTab := Int.toNat_of_nonneg h0
  rw [Ne, and_one_shiftLeft_eq_zero, Bool.not_eq_false, showPages_testBit]
  constructor
  · rintro ⟨_, s, hs, ht⟩
    exact ⟨s, hs, by rw [ht, hcast]⟩
  · rintro ⟨s, hs, ht⟩
    exact ⟨h0, s, hs, by omega⟩

theorem selected_tab_shown (K : Consts) (cfg : Config) (repo : List ScenarioIndexEntry)
    (w : ScenarioSelectWindow) (widgets : Nat → Widget) (i : Nat) (hi : i ≤ 9)
    (hbit : (InitTabs.showPages K cfg repo).testBit i = true) :
    ((InitTabs K cfg repo w widgets).2 (i + WIDX_TAB1)).type = WindowWidgetType.Tab := by
  have hmem : i ∈ List.range NumTabs := by
    rw [List.mem_range]
    unfold NumTabs
    omega
  have : ((InitTabs K cfg repo w widgets).2 (i + WIDX_TAB1)).type =
      if InitTabs.showPages K cfg repo &&& (1 <<< i) = 0 then WindowWidgetType.Empty
      else WindowWidgetType.Tab := by
    unfold InitTabs
    exact layout_type _ i _ _ hmem
  rw [this, if_neg]
  rw [and_one_shiftLeft_eq_zero, hbit]
  decide

/-! ## Lemmas on the rows the list draws -/

theorem OnScrollGetSize_cons (h : Int) (a : ScenarioListItem) (l : List ScenarioListItem) :
    OnScrollGetSize h (a :: l) = rowHeight h a + OnScrollGetSize h l := by
  cases a <;> rfl

theorem OnScrollGetSize_append (h : Int) (l₁ l₂ : List ScenarioListItem) :
    OnScrollGetSize h (l₁ ++ l₂) = OnScrollGetSize h l₁ + OnScrollGetSize h l₂ := by
  simp [OnScrollGetSize_eq_sum]

theorem OnScrollGetSize_nonneg (h : Int) (hh : 0 ≤ h) (l : List ScenarioListItem) :
    0 ≤ OnScrollGetSize h l := by
  rw [OnScrollGetSize_eq_sum]
  apply List.sum_nonneg
  intro x hx
  obtain ⟨b, _, rfl⟩ := List.mem_map.1 hx
  cases b
  · simp [rowHeight]
  · simpa [rowHeight] using hh

theorem OnScrollGetSize_take_mono (h : Int) (hh : 0 ≤ h) (l : List ScenarioListItem)
    (j i : Nat) (hji : j ≤ i) :
    OnScrollGetSize h (l.take j) ≤ OnScrollGetSize h (l.take i) := by
  have hsplit : l.take i = l.take j ++ (l.take i).drop j := by
    have h1 := List.take_append_drop j (l.take i)
    rw [List.take_take, Nat.min_eq_left hji] at h1
    exact h1.symm
  rw [hsplit, OnScrollGetSize_append]
  have := OnScrollGetSize_nonneg h hh ((l.take i).drop j)
  omega

theorem loop_head_skipped (highlighted : Option ScenarioIndexEntry)
    (dpi_y dpi_height h titleH : Int) (a : ScenarioListItem) (items : List ScenarioListItem)
    (y : Int) (hy : y > dpi_y + dpi_height) :
    OnScrollDraw.loop highlighted dpi_y dpi_height h titleH (a :: items) y =
      [] :: OnScrollDraw.loop highlighted dpi_y dpi_height h titleH items y := by
  cases a <;> simp only [OnScrollDraw.loop, if_pos hy]

theorem loop_head_drawn (highlighted : Option ScenarioIndexEntry)
    (dpi_y dpi_height h titleH : Int) (a : ScenarioListItem) (items : List ScenarioListItem)
    (y : Int) (hy : ¬ y > dpi_y + dpi_height) :
    ∃ ops, OnScrollDraw.loop highlighted dpi_y dpi_height h titleH (a :: items) y =
      ops :: OnScrollDraw.loop highlighted dpi_y dpi_height h titleH items
        (y + rowHeight h a) := by
  cases a with
  | Heading sid =>
    refine ⟨[DrawOp.CategoryHeading (y + 2) sid], ?_⟩
    simp only [OnScrollDraw.loop, if_neg hy, rowHeight]
  | Scenario sc b =>
    refine ⟨rowCalls highlighted titleH y sc b, ?_⟩
    simp only [OnScrollDraw.loop, if_neg hy, rowHeight, rowCalls, decide_eq_true_eq,
      drawnName_eq]

theorem loop_head_scenario (highlighted : Option ScenarioIndexEntry)
    (dpi_y dpi_height h titleH : Int) (sc : ScenarioIndexEntry) (b : Bool)
    (items : List ScenarioListItem) (y : Int) (hy : ¬ y > dpi_y + dpi_height) :
    (OnScrollDraw.loop highlighted dpi_y dpi_height h titleH
        (ScenarioListItem.Scenario sc b :: items) y)[0]?
      = some (rowCalls highlighted titleH y sc b) := by
  simp only [OnScrollDraw.loop, if_neg hy, List.getElem?_cons_zero, rowCalls,
    decide_eq_true_eq, drawnName_eq]

/-- The calls made for the scenario row at index `i` when the loop starts at `y0`: the row
is drawn, with its top at the accumulated height of the rows before it, exactly when no row
up to it starts below the clip rectangle; otherwise nothing is drawn for it. -/
theorem OnScrollDraw_loop_exact (highlighted : Option ScenarioIndexEntry)
    (dpi_y dpi_height h titleH : Int) (items : List ScenarioListItem) :
    ∀ (y0 : Int) (i : Nat) (scenario : ScenarioIndexEntry) (is_locked : Bool),
      items[i]? = some (ScenarioListItem.Scenario scenario is_locked) →
      ((∀ j ≤ i, y0 + OnScrollGetSize h (items.take j) ≤ dpi_y + dpi_height) →
        (OnScrollDraw.loop highlighted dpi_y dpi_height h titleH items y0)[i]? =
          some (rowCalls highlighted titleH (y0 + OnScrollGetSize h (items.take i))
            scenario is_locked)) ∧
      (¬ (∀ j ≤ i, y0 + OnScrollGetSize h (items.take j) ≤ dpi_y + dpi_height) →
        (OnScrollDraw.loop highlighted dpi_y dpi_height h titleH items y0)[i]? = some []) := by
  induction items with
  | nil => intro y0 i sc b hi; simp at hi
  | cons a items ih =>
    intro y0 i sc b hi
    have h0 : OnScrollGetSize h ((a :: items).take 0) = 0 := rfl
    have hsucc : ∀ j, OnScrollGetSize h ((a :: items).take (j + 1)) =
        rowHeight h a + OnScrollGetSize h (items.take j) := by
      intro j
      rw [List.take_succ_cons, OnScrollGetSize_cons]
    by_cases hy : y0 > dpi_y + dpi_height
    · -- the first row is below the clip rectangle: every row is skipped
      have hcond : ¬ (∀ j ≤ i, y0 + OnScrollGetSize h ((a :: items).take j)
          ≤ dpi_y + dpi_height) := by
        intro hc
        have := hc 0 (Nat.zero_le _)
        rw [h0] at this
        omega
      refine ⟨fun hc => absurd hc hcond, fun _ => ?_⟩
      rw [loop_head_skipped _ _ _ _ _ _ _ _ hy]
      cases i with
      | zero => exact List.getElem?_cons_zero
      | succ i =>
        simp only [List.getElem?_cons_succ] at hi ⊢
        apply (ih y0 i sc b hi).2
        intro hc
        have := hc 0 (Nat.zero_le _)
        have h0' : OnScrollGetSize h (items.take 0) = 0 := rfl
        rw [h0'] at this
        omega
    · cases i with
      | zero =>
        simp only [List.getElem?_cons_zero, Option.some.injEq] at hi
        subst hi
        constructor
        · intro _
          rw [h0, Int.add_zero]
          exact loop_head_scenario _ _ _ _ _ _ _ _ _ hy
        · intro hc
          exfalso
          apply hc
          intro j hj
          have hj0 : j = 0 := by omega
          subst hj0
          rw [h0]
          omega
      | succ i =>
        obtain ⟨ops, hops⟩ := loop_head_drawn highlighted dpi_y dpi_height h titleH a items y0 hy
        simp only [List.getElem?_cons_succ] at hi
        rw [hops]
        simp only [List.getElem?_cons_succ]
        have hiff : (∀ j ≤ i + 1, y0 + OnScrollGetSize h ((a :: items).take j)
              ≤ dpi_y + dpi_height) ↔
            (∀ j ≤ i, y0 + rowHeight h a + OnScrollGetSize h (items.take j)
              ≤ dpi_y + dpi_height) := by
          constructor
          · intro hc j hj
            have := hc (j + 1) (by omega)
            rw [hsucc] at this
            omega
          · intro hc j hj
            cases j with
            | zero => rw [h0]; omega
            | succ j =>
              have := hc j (by omega)
              rw [hsucc]
              omega
        obtain ⟨ih1, ih2⟩ := ih (y0 + rowHeight h a) i sc b hi
        constructor
        · intro hc
          rw [ih1 (hiff.1 hc), hsucc, Int.add_assoc]
        · intro hc
          exact ih2 (fun hc' => hc (hiff.2 hc'))

/-! ## Drawing, tabs and the agreement of hover and click -/

/-- C13: a scenario is shown as completed if and only if its `Highscore` is not null.  The
side panel draws the score line for the highlighted scenario exactly in that case.  The list
draws a scenario row exactly when no row up to it starts below the clip rectangle
(`y > dpi.y + dpi.height`; for a non-negative row height: when its own top does not), with
the calls `rowCalls`, which hold the tick and the "completed by" line exactly when the
`Highscore` is not null; a row that is not drawn gets no call at all.  The name shown is the
name of the highscore when that is non-empty and "???" when it is empty, the same in the list
row and in the side panel. -/
theorem completion_display (w : ScenarioSelectWindow) (DebuggingTools : Bool)
    (dpi_y dpi_height scenarioItemHeight scenarioTitleHeight : Int) :
    (∀ scenario, w._highlightedScenario = some scenario →
      ((∃ n v, DrawOp.CompletedByWithCompanyValue n v ∈ OnDraw w DebuggingTools)
        ↔ scenario.Highscore ≠ none) ∧
      (∀ n v, DrawOp.CompletedByWithCompanyValue n v ∈ OnDraw w DebuggingTools →
        ∃ highscore, scenario.Highscore = some highscore ∧
          n = completedByName highscore ∧ v = highscore.company_value)) ∧
    (OnScrollDraw w dpi_y dpi_height scenarioItemHeight scenarioTitleHeight).length
      = w._listItems.length ∧
    (∀ (i : Nat) scenario is_locked,
      w._listItems[i]? = some (ScenarioListItem.Scenario scenario is_locked) →
      ((∀ j ≤ i, OnScrollGetSize scenarioItemHeight (w._listItems.take j)
          ≤ dpi_y + dpi_height) →
        ∃ ops,
          (OnScrollDraw w dpi_y dpi_height scenarioItemHeight scenarioTitleHeight)[i]?
            = some ops ∧
          ops = rowCalls w._highlightedScenario scenarioTitleHeight
            (OnScrollGetSize scenarioItemHeight (w._listItems.take i)) scenario is_locked ∧
          ops ≠ [] ∧
          (DrawOp.CompletionTick (OnScrollGetSize scenarioItemHeight (w._listItems.take i) + 1)
            ∈ ops ↔ scenario.Highscore ≠ none) ∧
          ((∃ z, DrawOp.CompletionTick z ∈ ops) ↔ scenario.Highscore ≠ none) ∧
          ((∃ z n, DrawOp.CompletedBy z n ∈ ops) ↔ scenario.Highscore ≠ none) ∧
          (∀ highscore, scenario.Highscore = some highscore →
            DrawOp.CompletedBy
              (OnScrollGetSize scenarioItemHeight (w._listItems.take i)
                + scenarioTitleHeight + 1) (completedByName highscore) ∈ ops) ∧
          (∀ z n, DrawOp.CompletedBy z n ∈ ops →
            ∃ highscore, scenario.Highscore = some highscore ∧
              n = completedByName highscore)) ∧
      (¬ (∀ j ≤ i, OnScrollGetSize scenarioItemHeight (w._listItems.take j)
          ≤ dpi_y + dpi_height) →
        (OnScrollDraw w dpi_y dpi_height scenarioItemHeight scenarioTitleHeight)[i]?
          = some []) ∧
      (0 ≤ scenarioItemHeight →
        ((∀ j ≤ i, OnScrollGetSize scenarioItemHeight (w._listItems.take j)
            ≤ dpi_y + dpi_height) ↔
          OnScrollGetSize scenarioItemHeight (w._listItems.take i) ≤ dpi_y + dpi_height))) ∧
    (∀ (i : Nat) scenario is_locked ops,
      w._listItems[i]? = some (ScenarioListItem.Scenario scenario is_locked) →
      (OnScrollDraw w dpi_y dpi_height scenarioItemHeight scenarioTitleHeight)[i]? = some ops →
      ops ≠ [] →
      ((∃ z, DrawOp.CompletionTick z ∈ ops) ↔ scenario.Highscore ≠ none) ∧
      ((∃ z n, DrawOp.CompletedBy z n ∈ ops) ↔ scenario.Highscore ≠ none) ∧
      (∀ z n, DrawOp.CompletedBy z n ∈ ops →
        ∃ highscore, scenario.Highscore = some highscore ∧ n = completedByName highscore)) ∧
    (∀ highscore : ScenarioHighscoreEntry,
      (highscore.name ≠ "" → completedByName highscore = highscore.name) ∧
      (highscore.name = "" → completedByName highscore = "???")) := by
  refine ⟨?_, OnScrollDraw_loop_length _ _ _ _ _ _ _, ?_, ?_, ?_⟩
  · intro scenario hsc
    unfold OnDraw
    rw [hsc]
    simp only
    cases hh : scenario.Highscore with
    | none =>
      refine ⟨⟨?_, fun h => absurd rfl h⟩, ?_⟩
      · rintro ⟨n, v, hmem⟩
        exfalso
        by_cases hd : DebuggingTools = true <;> simp [hd] at hmem
      · intro n v hmem
        exfalso
        by_cases hd : DebuggingTools = true <;> simp [hd] at hmem
    | some highscore =>
      simp only [drawnName_eq]
      refine ⟨⟨fun _ => by simp,
        fun _ => ⟨completedByName highscore, highscore.company_value, by simp⟩⟩, ?_⟩
      intro n v hmem
      refine ⟨highscore, rfl, ?_⟩
      by_cases hd : DebuggingTools = true <;> simpa [hd] using hmem
  · intro i scenario is_locked hi
    obtain ⟨hdrawn, hskipped⟩ := OnScrollDraw_loop_exact w._highlightedScenario dpi_y dpi_height
      scenarioItemHeight scenarioTitleHeight w._listItems 0 i scenario is_locked hi
    simp only [Int.zero_add] at hdrawn hskipped
    refine ⟨?_, hskipped, ?_⟩
    · intro hc
      have hops := hdrawn hc
      have hne : rowCalls w._highlightedScenario scenarioTitleHeight
          (OnScrollGetSize scenarioItemHeight (w._listItems.take i)) scenario is_locked
          ≠ [] := by
        unfold rowCalls
        simp
      obtain ⟨h1, h2, h3⟩ := OnScrollDraw_loop_row w._highlightedScenario dpi_y dpi_height
        scenarioItemHeight scenarioTitleHeight w._listItems 0 i scenario is_locked _ hi hops hne
      refine ⟨_, hops, rfl, hne, ?_, h1, h2, ?_, h3⟩
      · constructor
        · intro hmem
          exact h1.1 ⟨_, hmem⟩
        · intro hsome
          cases hh : scenario.Highscore with
          | none => exact absurd hh hsome
          | some highscore => simp [rowCalls, hh]
      · intro highscore hh
        simp [rowCalls, hh]
    · intro hh
      constructor
      · intro hc
        exact hc i (Nat.le_refl _)
      · intro htop j hj
        exact Int.le_trans
          (OnScrollGetSize_take_mono scenarioItemHeight hh w._listItems j i hj) htop
  · intro i scenario is_locked ops hi hops hne
    exact OnScrollDraw_loop_row _ _ _ _ _ _ _ i scenario is_locked ops hi hops hne
  · intro highscore
    unfold completedByName
    constructor
    · intro h; rw [if_neg h]
    · intro h; rw [if_pos h]

/-- An evaluation of `OnScrollDraw`: with a clip rectangle that ends at 50 and rows of height 18, 24,
24, 24, the completed rows at 18 and 42 are drawn with tick and name ("ted", and "???" for
the empty name), and the row at 66 is below the rectangle and gets no call. -/
theorem OnScrollDraw_clip_eval :
    OnScrollDraw
        { sampleWindow with
          _listItems := [.Heading 100, .Scenario forestFrontiers false,
            .Scenario namelessHighscore true, .Scenario forestFrontiers true] }
        0 50 24 12 =
      [[DrawOp.CategoryHeading 2 100],
       [DrawOp.ListScenarioName 19 "Forest Frontiers" false false,
        DrawOp.CompletionTick 19, DrawOp.CompletedBy 31 "ted"],
       [DrawOp.ListScenarioName 43 "Leafy Lake" true false,
        DrawOp.CompletionTick 43, DrawOp.CompletedBy 55 "???"],
       []] := by
  decide

/-- C16: a click at `y` invokes the callback exactly when the hover at the same `y` highlights
a scenario, and then with the Path of that scenario; and for every `y` at or beyond the height
returned by `OnScrollGetSize` the hover leaves the highlighted scenario null and the
locked-information flag false and the click invokes nothing. -/
theorem hover_click_agree (w : ScenarioSelectWindow) (scenarioItemHeight y : Int)
    (hpos : 0 < scenarioItemHeight) :
    (OnScrollMouseDown w scenarioItemHeight y =
      match (OnScrollMouseOver w scenarioItemHeight y)._highlightedScenario with
      | some scenario => [scenario.Path]
      | none => []) ∧
    (∀ scenario, (OnScrollMouseOver w scenarioItemHeight y)._highlightedScenario = some scenario →
      OnScrollMouseDown w scenarioItemHeight y = [scenario.Path]) ∧
    (∀ path, OnScrollMouseDown w scenarioItemHeight y = [path] →
      ∃ scenario, (OnScrollMouseOver w scenarioItemHeight y)._highlightedScenario = some scenario ∧
        scenario.Path = path) ∧
    (OnScrollGetSize scenarioItemHeight w._listItems ≤ y →
      (OnScrollMouseOver w scenarioItemHeight y)._highlightedScenario = none ∧
      (OnScrollMouseOver w scenarioItemHeight y)._showLockedInformation = false ∧
      OnScrollMouseDown w scenarioItemHeight y = []) := by
  obtain ⟨hh, hs⟩ := OnScrollMouseOver_fields w scenarioItemHeight y
  have hover := OnScrollMouseOver_loop_eq scenarioItemHeight w._listItems y
  have click := OnScrollMouseDown_loop_eq scenarioItemHeight w._listItems y
  have hclick : OnScrollMouseDown w scenarioItemHeight y
      = OnScrollMouseDown.loop scenarioItemHeight w._listItems y := rfl
  rw [hh, hs, hclick, hover, click]
  refine ⟨?_, ?_, ?_, ?_⟩
  · generalize hitRow scenarioItemHeight w._listItems y = r
    match r with
    | none => rfl
    | some (ScenarioListItem.Heading _) => rfl
    | some (ScenarioListItem.Scenario _ true) => rfl
    | some (ScenarioListItem.Scenario _ false) => rfl
  · generalize hitRow scenarioItemHeight w._listItems y = r
    match r with
    | none => simp
    | some (ScenarioListItem.Heading _) => simp
    | some (ScenarioListItem.Scenario _ true) => simp
    | some (ScenarioListItem.Scenario _ false) => simp
  · generalize hitRow scenarioItemHeight w._listItems y = r
    match r with
    | none => simp
    | some (ScenarioListItem.Heading _) => simp
    | some (ScenarioListItem.Scenario _ true) => simp
    | some (ScenarioListItem.Scenario _ false) => simp
  · intro hy
    rw [hitRow_none_of_size_le scenarioItemHeight hpos w._listItems y hy]
    exact ⟨rfl, rfl, rfl⟩

/-- Witness of C16: with rows of height 18, 24, 24 the hover and the click at `y = 20` both
pick Forest Frontiers, and at `y = 66`, the height of the list, neither picks anything. -/
theorem hover_click_agree_witness :
    (0 : Int) < 24 ∧
    (OnScrollMouseOver sampleWindow 24 20)._highlightedScenario = some forestFrontiers ∧
    OnScrollMouseDown sampleWindow 24 20 = [forestFrontiers.Path] ∧
    OnScrollGetSize 24 sampleWindow._listItems = 66 ∧
    OnScrollMouseDown sampleWindow 24 66 = [] :=
  ⟨by decide, by decide,
    (hover_click_agree sampleWindow 24 20 (by decide)).2.1 forestFrontiers (by decide),
    by decide,
    ((hover_click_agree sampleWindow 24 66 (by decide)).2.2.2 (by decide)).2.2⟩

/-- C15: after `InitTabs` the `k`-th shown tab, `k` being the number of tabs of type `Tab`
before it, has `top = 17 + 34 * k` and `bottom = top + 33`, whatever the widget table held
before; a hidden tab is of type `Empty` and keeps the top and bottom it had. -/
theorem InitTabs_tab_layout (K : Consts) (cfg : Config) (repo : List ScenarioIndexEntry)
    (w : ScenarioSelectWindow) (widgets : Nat → Widget) (i : Nat) (hi : i ≤ 9) :
    (((InitTabs K cfg repo w widgets).2 (i + WIDX_TAB1)).type = WindowWidgetType.Tab →
      ((InitTabs K cfg repo w widgets).2 (i + WIDX_TAB1)).top =
        17 + 34 * (shownBefore (InitTabs K cfg repo w widgets).2 i : Int) ∧
      ((InitTabs K cfg repo w widgets).2 (i + WIDX_TAB1)).bottom =
        ((InitTabs K cfg repo w widgets).2 (i + WIDX_TAB1)).top + 33) ∧
    (((InitTabs K cfg repo w widgets).2 (i + WIDX_TAB1)).type ≠ WindowWidgetType.Tab →
      ((InitTabs K cfg repo w widgets).2 (i + WIDX_TAB1)).type = WindowWidgetType.Empty ∧
      ((InitTabs K cfg repo w widgets).2 (i + WIDX_TAB1)).top = (widgets (i + WIDX_TAB1)).top ∧
      ((InitTabs K cfg repo w widgets).2 (i + WIDX_TAB1)).bottom
        = (widgets (i + WIDX_TAB1)).bottom) ∧
    TabsStart = 17 ∧ TabHeight = 34 := by
  have hlt : i < NumTabs := by unfold NumTabs; omega
  have hres : (InitTabs K cfg repo w widgets).2 =
      ((List.range NumTabs).foldl (InitTabs.layoutStep (InitTabs.showPages K cfg repo))
        (widgets, TabsStart)).1 := rfl
  obtain ⟨_, hshown, hhidden, _⟩ := layout_range (InitTabs.showPages K cfg repo) widgets NumTabs
  rw [hres, shownBefore_eq _ _ _ (Nat.le_of_lt hlt)]
  refine ⟨?_, ?_, rfl, rfl⟩
  · intro ht
    by_cases hz : InitTabs.showPages K cfg repo &&& (1 <<< i) = 0
    · rw [hhidden i hlt hz] at ht
      cases ht
    · rw [hshown i hlt hz]
      simp only [TabsStart, WidgetsStart, TabHeight]
      constructor
      · trivial
      · omega
  · intro ht
    by_cases hz : InitTabs.showPages K cfg repo &&& (1 <<< i) = 0
    · rw [hhidden i hlt hz]
      exact ⟨rfl, rfl, rfl⟩
    · rw [hshown i hlt hz] at ht
      exact absurd rfl ht

/-- Witness of C15: with scenarios on tabs 0 and 3 only, tab 3 is the second shown tab and
is laid out at 51..84. -/
theorem InitTabs_tab_layout_witness :
    (3 : Nat) ≤ 9 ∧
    shownBefore (InitTabs sampleConsts sampleConfig [forestFrontiers, crazyCastle] sampleWindow
      sampleWidgets).2 3 = 1 ∧
    ((InitTabs sampleConsts sampleConfig [forestFrontiers, crazyCastle] sampleWindow
      sampleWidgets).2 (3 + WIDX_TAB1)).top = 17 + 34 * ((1 : Nat) : Int) ∧
    ((InitTabs sampleConsts sampleConfig [forestFrontiers, crazyCastle] sampleWindow
      sampleWidgets).2 (3 + WIDX_TAB1)).bottom = 84 :=
  ⟨by decide, by decide,
    by
      have h := ((InitTabs_tab_layout sampleConsts sampleConfig [forestFrontiers, crazyCastle]
        sampleWindow sampleWidgets 3 (by decide)).1 (by decide)).1
      have hk : shownBefore (InitTabs sampleConsts sampleConfig [forestFrontiers, crazyCastle]
        sampleWindow sampleWidgets).2 3 = 1 := by decide
      rw [hk] at h
      exact h,
    by decide⟩

/-- C14: for a last-used tab in 0..9 and a repository whose scenarios map to tab numbers
0..9, `InitTabs` sets `selected_tab` to the last-used tab when that tab has a scenario;
otherwise, for a non-empty repository, to the lowest-numbered tab that has a scenario; for an
empty repository it leaves `selected_tab` as it was.  Hence for a non-empty repository the
selected tab is in 0..9, its widget is of type `Tab`, and some repository scenario passes
`IsScenarioVisible` for it. -/
theorem InitTabs_selected_tab (K : Consts) (cfg : Config) (repo : List ScenarioIndexEntry)
    (w : ScenarioSelectWindow) (widgets : Nat → Widget)
    (hlast : 0 ≤ cfg.ScenarioselectLastTab ∧ cfg.ScenarioselectLastTab ≤ 9)
    (hrange : ∀ s ∈ repo, tabOf K cfg s ≤ 9) :
    ((∃ s ∈ repo, (tabOf K cfg s : Int) = cfg.ScenarioselectLastTab) →
      (InitTabs K cfg repo w widgets).1.selected_tab = cfg.ScenarioselectLastTab) ∧
    ((¬ ∃ s ∈ repo, (tabOf K cfg s : Int) = cfg.ScenarioselectLastTab) → repo ≠ [] →
      (∃ s ∈ repo, (tabOf K cfg s : Int) = (InitTabs K cfg repo w widgets).1.selected_tab) ∧
      ∀ s ∈ repo, (InitTabs K cfg repo w widgets).1.selected_tab ≤ (tabOf K cfg s : Int)) ∧
    (repo = [] → (InitTabs K cfg repo w widgets).1.selected_tab = w.selected_tab) ∧
    (repo ≠ [] →
      0 ≤ (InitTabs K cfg repo w widgets).1.selected_tab ∧
      (InitTabs K cfg repo w widgets).1.selected_tab ≤ 9 ∧
      ((InitTabs K cfg repo w widgets).2
        ((InitTabs K cfg repo w widgets).1.selected_tab.toNat + WIDX_TAB1)).type
          = WindowWidgetType.Tab ∧
      ∃ s ∈ repo,
        IsScenarioVisible K cfg (InitTabs K cfg repo w widgets).1.selected_tab s = true) := by
  have hsel : (InitTabs K cfg repo w widgets).1.selected_tab
      = InitTabs.selectTab cfg (InitTabs.showPages K cfg repo) w.selected_tab := rfl
  have htest := lastTab_test_iff K cfg repo cfg.ScenarioselectLastTab hlast.1
  have hbit := showPages_testBit K cfg repo
  -- the tab chosen when the last-used tab has no scenario and the repository is not empty
  have hscan : (¬ ∃ s ∈ repo, (tabOf K cfg s : Int) = cfg.ScenarioselectLastTab) → repo ≠ [] →
      ∃ i : Nat, (InitTabs K cfg repo w widgets).1.selected_tab = (i : Int) ∧
        (InitTabs.showPages K cfg repo).testBit i = true ∧
        ∀ j < i, (InitTabs.showPages K cfg repo).testBit j = false := by
    intro hno hne
    have hnz : InitTabs.showPages K cfg repo ≠ 0 := by
      obtain ⟨s, hs⟩ := List.exists_mem_of_ne_nil repo hne
      intro h0
      have := (hbit (tabOf K cfg s)).2 ⟨s, hs, rfl⟩
      rw [h0, Nat.zero_testBit] at this
      cases this
    have hlt : InitTabs.showPages K cfg repo < 2 ^ 32 :=
      Nat.lt_of_lt_of_le (showPages_lt K cfg repo hrange) (by decide)
    obtain ⟨i, hi, hset, hlow⟩ := UtilBitScanForward_lowest _ hnz hlt
    refine ⟨i, ?_, hset, hlow⟩
    rw [hsel]
    unfold InitTabs.selectTab
    rw [if_neg (fun h => hno (htest.1 h))]
    simp only [hi]
    rw [if_pos (by omega)]
  refine ⟨?_, ?_, ?_, ?_⟩
  · intro hex
    rw [hsel]
    unfold InitTabs.selectTab
    rw [if_pos (htest.2 hex)]
  · intro hno hne
    obtain ⟨i, hi, hset, hlow⟩ := hscan hno hne
    rw [hi]
    obtain ⟨s, hs, ht⟩ := (hbit i).1 hset
    refine ⟨⟨s, hs, by rw [ht]⟩, ?_⟩
    intro s' hs'
    by_contra hc
    have hlt : tabOf K cfg s' < i := by omega
    have := (hbit (tabOf K cfg s')).2 ⟨s', hs', rfl⟩
    rw [hlow _ hlt] at this
    cases this
  · intro hnil
    rw [hsel, hnil, showPages_nil]
    unfold InitTabs.selectTab
    rw [if_neg (by simp), UtilBitScanForward_zero]
    simp
  · intro hne
    by_cases hex : ∃ s ∈ repo, (tabOf K cfg s : Int) = cfg.ScenarioselectLastTab
    · have hs : (InitTabs K cfg repo w widgets).1.selected_tab = cfg.ScenarioselectLastTab := by
        rw [hsel]
        unfold InitTabs.selectTab
        rw [if_pos (htest.2 hex)]
      rw [hs]
      obtain ⟨s, hs', ht⟩ := hex
      have hset : (InitTabs.showPages K cfg repo).testBit cfg.ScenarioselectLastTab.toNat
          = true := (hbit _).2 ⟨s, hs', by omega⟩
      refine ⟨hlast.1, hlast.2, ?_, s, hs', (IsScenarioVisible_iff K cfg _ s).2 ht⟩
      exact selected_tab_shown K cfg repo w widgets _ (by omega) hset
    · obtain ⟨i, hi, hset, _⟩ := hscan hex hne
      rw [hi]
      obtain ⟨s, hs, ht⟩ := (hbit i).1 hset
      have hi9 : i ≤ 9 := by
        have := hrange s hs
        omega
      refine ⟨by omega, by omega, ?_, s, hs, (IsScenarioVisible_iff K cfg _ s).2 (by rw [ht])⟩
      rw [Int.toNat_ofNat]
      exact selected_tab_shown K cfg repo w widgets i hi9 hset

/-- Witness of C14: the last-used tab 0 has no scenario in a repository with one RCT2
scenario, so tab 3, the only tab with a scenario, is selected. -/
theorem InitTabs_selected_tab_witness :
    (0 ≤ sampleConfig.ScenarioselectLastTab ∧ sampleConfig.ScenarioselectLastTab ≤ 9) ∧
    (∀ s ∈ [crazyCastle], tabOf sampleConsts sampleConfig s ≤ 9) ∧
    (InitTabs sampleConsts sampleConfig [crazyCastle] sampleWindow sampleWidgets).1.selected_tab
      = 3 ∧
    ∃ s ∈ [crazyCastle],
      (tabOf sampleConsts sampleConfig s : Int) =
        (InitTabs sampleConsts sampleConfig [crazyCastle] sampleWindow
          sampleWidgets).1.selected_tab :=
  ⟨by decide, by decide, by decide,
    ((InitTabs_selected_tab sampleConsts sampleConfig [crazyCastle] sampleWindow sampleWidgets
      (by decide) (by decide)).2.1 (by decide) (by decide)).1⟩

/-! ## Lemmas on the heading grouping -/

theorem headedRun_concat (strId : Nat → StringId) (key : ScenarioIndexEntry → Nat)
    (run : List ScenarioIndexEntry) (a : ScenarioIndexEntry) (hne : run ≠ []) :
    headedRun strId key (run ++ [a])
      = headedRun strId key run ++ [ScenarioListItem.Scenario a false] := by
  cases run with
  | nil => exact absurd rfl hne
  | cons s run => simp [headedRun]

theorem headedRuns_loop (strId : Nat → StringId) (key : ScenarioIndexEntry → Nat)
    (l : List ScenarioIndexEntry) :
    ∀ (ag : ScenarioIndexEntry) (g : List ScenarioIndexEntry)
      (gs : List (List ScenarioIndexEntry)),
      ((List.splitBy.loop (fun a b => key a == key b) l ag g gs).map
          (headedRun strId key)).flatten =
        (gs.reverse.map (headedRun strId key)).flatten
          ++ headedRun strId key (g.reverse ++ [ag])
          ++ appendedRows strId key (key ag) l := by
  induction l with
  | nil =>
    intro ag g gs
    simp [List.splitBy.loop, appendedRows]
  | cons a as ih =>
    intro ag g gs
    rw [List.splitBy.loop]
    by_cases hk : key ag = key a
    · have hb : (key ag == key a) = true := by simpa using hk
      simp only [hb]
      rw [ih, List.reverse_cons, headedRun_concat _ _ _ _ (by simp)]
      simp [appendedRows, hk]
    · have hb : (key ag == key a) = false := by simpa using hk
      simp only [hb]
      rw [ih]
      simp [appendedRows, hk, headedRun]

theorem headedRuns_cons (strId : Nat → StringId) (key : ScenarioIndexEntry → Nat)
    (s : ScenarioIndexEntry) (l : List ScenarioIndexEntry) :
    headedRuns strId key (s :: l) =
      ScenarioListItem.Heading (strId (key s)) :: ScenarioListItem.Scenario s false
        :: appendedRows strId key (key s) l := by
  unfold headedRuns
  rw [List.splitBy, headedRuns_loop]
  simp [headedRun]

/-- Started from a `currentHeading` that differs from the key of the first scenario, the
rows the loop appends are the scenarios in their maximal runs, each under one heading. -/
theorem appendedRows_eq_headedRuns (strId : Nat → StringId) (key : ScenarioIndexEntry → Nat)
    (cur : Nat) (l : List ScenarioIndexEntry)
    (hfirst : ∀ s, l.head? = some s → key s ≠ cur) :
    appendedRows strId key cur l = headedRuns strId key l := by
  cases l with
  | nil => rfl
  | cons s l =>
    have hne : cur ≠ key s := fun h => hfirst s rfl h.symm
    rw [headedRuns_cons]
    simp [appendedRows, hne]

theorem body_items_eq (K : Consts) (cfg : Config) (tab : Int)
    (st : InitialiseListItems.Locals) (s : ScenarioIndexEntry)
    (hv : IsScenarioVisible K cfg tab s = true) :
    (InitialiseListItems.body K cfg tab st s)._listItems =
      st._listItems ++
        (if (InitialiseListItems.heading K cfg tab st.currentHeading s).2 ≠ K.STR_NONE then
          [ScenarioListItem.Heading (InitialiseListItems.heading K cfg tab st.currentHeading s).2]
         else []) ++
        [ScenarioListItem.Scenario s
          (IsLockingEnabled K cfg tab && decide (st.numUnlocks ≤ 0))] ∧
    (InitialiseListItems.body K cfg tab st s).currentHeading =
      (InitialiseListItems.heading K cfg tab st.currentHeading s).1 := by
  unfold InitialiseListItems.body
  simp only [hv, Bool.true_eq_false, if_false]
  by_cases hh : (InitialiseListItems.heading K cfg tab st.currentHeading s).2 ≠ K.STR_NONE
  · rw [if_pos hh, if_pos hh]
    cases hl : IsLockingEnabled K cfg tab
    · simp only [Bool.false_eq_true, if_false, Bool.false_and, and_self]
    · simp only [if_true, Bool.true_and, and_self]
  · rw [if_neg hh, if_neg hh]
    cases hl : IsLockingEnabled K cfg tab
    · simp only [Bool.false_eq_true, if_false, Bool.false_and, List.append_nil, and_self]
    · simp only [if_true, Bool.true_and, List.append_nil, and_self]

/-- The shape of the list the loop builds when a visible scenario gets a heading exactly
when its key differs from `currentHeading`, the heading carrying the string id of the key. -/
theorem foldl_body_shape (K : Consts) (cfg : Config) (tab : Int)
    (strId : Nat → StringId) (key : ScenarioIndexEntry → Nat)
    (repo : List ScenarioIndexEntry) :
    ∀ st : InitialiseListItems.Locals,
      (∀ cur, ∀ s ∈ repo, IsScenarioVisible K cfg tab s = true →
        InitialiseListItems.heading K cfg tab cur s =
          if cur ≠ key s then (key s, strId (key s)) else (cur, K.STR_NONE)) →
      (∀ s ∈ repo, IsScenarioVisible K cfg tab s = true → strId (key s) ≠ K.STR_NONE) →
      (repo.foldl (InitialiseListItems.body K cfg tab) st)._listItems.map eraseLock =
        st._listItems.map eraseLock ++
          appendedRows strId key st.currentHeading
            (repo.filter (IsScenarioVisible K cfg tab)) := by
  induction repo with
  | nil => intro st _ _; simp [appendedRows]
  | cons s repo ih =>
    intro st hreg hstr
    rw [List.foldl_cons, ih _ (fun cur s' hs' => hreg cur s' (List.mem_cons_of_mem _ hs'))
      (fun s' hs' => hstr s' (List.mem_cons_of_mem _ hs'))]
    by_cases hv : IsScenarioVisible K cfg tab s = true
    · obtain ⟨hitems, hcur⟩ := body_items_eq K cfg tab st s hv
      rw [hitems, hcur, hreg _ s (List.mem_cons_self _ _) hv, List.filter_cons_of_pos hv]
      have hs := hstr s (List.mem_cons_self _ _) hv
      by_cases hk : st.currentHeading = key s
      · simp [hk, appendedRows, eraseLock]
      · simp [hk, hs, appendedRows, eraseLock]
    · have hv' : IsScenarioVisible K cfg tab s = false := by simpa using hv
      rw [body_of_not_visible K cfg tab st s hv', List.filter_cons_of_neg hv]

/-- The list the loop builds has no heading rows when no visible scenario is given a
heading string. -/
theorem loop_no_headings (K : Consts) (cfg : Config) (tab : Int)
    (repo : List ScenarioIndexEntry)
    (hreg : ∀ cur, ∀ s ∈ repo, IsScenarioVisible K cfg tab s = true →
      (InitialiseListItems.heading K cfg tab cur s).2 = K.STR_NONE) :
    ∀ item ∈ (InitialiseListItems.loop K cfg tab repo)._listItems, isHeading item = false := by
  unfold InitialiseListItems.loop
  apply foldl_body_induction K cfg tab
    (fun st => ∀ item ∈ st._listItems, isHeading item = false) repo
  · intro st s hs hP
    by_cases hv : IsScenarioVisible K cfg tab s = true
    · rw [(body_items_eq K cfg tab st s hv).1, hreg _ s hs hv]
      intro item hitem
      simp only [ne_eq, not_true_eq_false, if_false, List.append_nil, List.mem_append,
        List.mem_singleton] at hitem
      rcases hitem with hitem | hitem
      · exact hP item hitem
      · subst hitem
        rfl
    · have hv' : IsScenarioVisible K cfg tab s = false := by simpa using hv
      rw [body_of_not_visible K cfg tab st s hv']
      exact hP
  · intro item hitem
    simp [InitialiseListItems.init] at hitem

theorem setIsLocked_map_eraseLock (b : Bool) (l : List ScenarioListItem) :
    ∀ n : Nat, (setIsLocked b l n).map eraseLock = l.map eraseLock := by
  induction l with
  | nil => intro n; rfl
  | cons a l ih =>
    intro n
    cases n with
    | zero => cases a <;> simp [setIsLocked, eraseLock]
    | succ n => simp [setIsLocked, ih n]

theorem megaPark_map_eraseLock (K : Consts) (cfg : Config) (st : InitialiseListItems.Locals)
    (h : InitialiseListItems.removesMegaPark K cfg st = false) :
    (InitialiseListItems.megaPark K cfg st).map eraseLock = st._listItems.map eraseLock := by
  unfold InitialiseListItems.megaPark
  unfold InitialiseListItems.removesMegaPark at h
  cases hidx : st.megaParkListItemIndex with
  | none => rfl
  | some idx =>
    rw [hidx] at h
    simp only at h ⊢
    rw [if_neg (by
      intro hc
      rw [hc.1, hc.2] at h
      cases h)]
    exact setIsLocked_map_eraseLock _ _ _

theorem removeEmptyHeadings_mem (l : List ScenarioListItem) :
    ∀ item ∈ removeEmptyHeadings l, item ∈ l := by
  induction l with
  | nil => intro item h; simp [removeEmptyHeadings] at h
  | cons a l ih =>
    intro item h
    cases a with
    | Scenario sc b =>
      rw [removeEmptyHeadings_head] at h
      rcases List.mem_cons.1 h with h | h
      · exact h ▸ List.mem_cons_self _ _
      · exact List.mem_cons_of_mem _ (ih item h)
    | Heading sid =>
      cases l with
      | nil => simp [removeEmptyHeadings] at h
      | cons a' l' =>
        cases a' with
        | Heading sid' =>
          have : removeEmptyHeadings (ScenarioListItem.Heading sid :: ScenarioListItem.Heading sid' :: l')
              = removeEmptyHeadings (ScenarioListItem.Heading sid' :: l') := by
            rw [removeEmptyHeadings]
          rw [this] at h
          exact List.mem_cons_of_mem _ (ih item h)
        | Scenario sc b =>
          have : removeEmptyHeadings
                (ScenarioListItem.Heading sid :: ScenarioListItem.Scenario sc b :: l')
              = ScenarioListItem.Heading sid
                  :: removeEmptyHeadings (ScenarioListItem.Scenario sc b :: l') := by
            simp [removeEmptyHeadings]
          rw [this] at h
          rcases List.mem_cons.1 h with h | h
          · exact h ▸ List.mem_cons_self _ _
          · exact List.mem_cons_of_mem _ (ih item h)

theorem megaPark_no_headings (K : Consts) (cfg : Config) (st : InitialiseListItems.Locals)
    (h : ∀ item ∈ st._listItems, isHeading item = false) :
    ∀ item ∈ InitialiseListItems.megaPark K cfg st, isHeading item = false := by
  have hset : ∀ b n, ∀ item ∈ setIsLocked b st._listItems n, isHeading item = false := by
    intro b n item hitem
    have hmem : isHeading item ∈ (setIsLocked b st._listItems n).map isHeading :=
      List.mem_map_of_mem _ hitem
    rw [setIsLocked_map_isHeading] at hmem
    obtain ⟨item', hitem', heq⟩ := List.mem_map.1 hmem
    rw [← heq]
    exact h item' hitem'
  unfold InitialiseListItems.megaPark
  split
  · exact h
  · simp only
    split
    · intro item hitem
      exact hset _ _ item (List.mem_of_mem_dropLast (removeEmptyHeadings_mem _ item hitem))
    · exact hset _ _


theorem heading_origin (K : Consts) (cfg : Config) (tab : Int) (cur : Nat)
    (s : ScenarioIndexEntry)
    (hmode : cfg.ScenarioSelectMode = K.SCENARIO_SELECT_MODE_ORIGIN)
    (htab : tab ≠ (K.ScenarioSource_Real : Int)) :
    InitialiseListItems.heading K cfg tab cur s =
      if cur ≠ s.Category then (s.Category, K.ScenarioCategoryStringIds s.Category)
      else (cur, K.STR_NONE) := by
  unfold InitialiseListItems.heading
  rw [if_pos hmode]
  by_cases hk : cur ≠ s.Category
  · rw [if_pos ⟨htab, hk⟩, if_pos hk]
  · rw [if_neg (fun h => hk h.2), if_neg hk]

theorem heading_origin_real (K : Consts) (cfg : Config) (tab : Int) (cur : Nat)
    (s : ScenarioIndexEntry)
    (hmode : cfg.ScenarioSelectMode = K.SCENARIO_SELECT_MODE_ORIGIN)
    (htab : tab = (K.ScenarioSource_Real : Int)) :
    (InitialiseListItems.heading K cfg tab cur s).2 = K.STR_NONE := by
  unfold InitialiseListItems.heading
  rw [if_pos hmode, if_neg (fun h => h.1 htab)]

theorem heading_category_source (K : Consts) (cfg : Config) (tab : Int) (cur : Nat)
    (s : ScenarioIndexEntry)
    (hmode : cfg.ScenarioSelectMode ≠ K.SCENARIO_SELECT_MODE_ORIGIN)
    (htab : tab ≤ (K.SCENARIO_CATEGORY_EXPERT : Int)) :
    InitialiseListItems.heading K cfg tab cur s =
      if cur ≠ s.SourceGame then (s.SourceGame, kScenarioOriginStringIds K s.SourceGame)
      else (cur, K.STR_NONE) := by
  unfold InitialiseListItems.heading
  rw [if_neg hmode, if_pos htab]

theorem heading_category_other (K : Consts) (cfg : Config) (tab : Int) (cur : Nat)
    (s : ScenarioIndexEntry)
    (hmode : cfg.ScenarioSelectMode ≠ K.SCENARIO_SELECT_MODE_ORIGIN)
    (hnot : ¬ tab ≤ (K.SCENARIO_CATEGORY_EXPERT : Int))
    (htab : tab = (K.SCENARIO_CATEGORY_OTHER : Int))
    (hcat : K.SCENARIO_CATEGORY_REAL < s.Category) (hbyte : s.Category < 256) :
    InitialiseListItems.heading K cfg tab cur s =
      if cur ≠ s.Category then (s.Category, K.ScenarioCategoryStringIds s.Category)
      else (cur, K.STR_NONE) := by
  unfold InitialiseListItems.heading
  rw [if_neg hmode, if_neg hnot, if_pos htab]
  have hsub : (if s.Category ≤ K.SCENARIO_CATEGORY_REAL then K.SCENARIO_CATEGORY_OTHER
      else s.Category) = s.Category := if_neg (by omega)
  simp only [hsub, Nat.mod_eq_of_lt hbyte]

theorem heading_category_none (K : Consts) (cfg : Config) (tab : Int) (cur : Nat)
    (s : ScenarioIndexEntry)
    (hmode : cfg.ScenarioSelectMode ≠ K.SCENARIO_SELECT_MODE_ORIGIN)
    (hnot : ¬ tab ≤ (K.SCENARIO_CATEGORY_EXPERT : Int))
    (htab : tab ≠ (K.SCENARIO_CATEGORY_OTHER : Int)) :
    (InitialiseListItems.heading K cfg tab cur s).2 = K.STR_NONE := by
  unfold InitialiseListItems.heading
  rw [if_neg hmode, if_neg hnot, if_neg htab]

theorem loop_shape (K : Consts) (cfg : Config) (tab : Int)
    (strId : Nat → StringId) (key : ScenarioIndexEntry → Nat)
    (repo : List ScenarioIndexEntry)
    (hreg : ∀ cur, ∀ s ∈ repo, IsScenarioVisible K cfg tab s = true →
      InitialiseListItems.heading K cfg tab cur s =
        if cur ≠ key s then (key s, strId (key s)) else (cur, K.STR_NONE))
    (hstr : ∀ s ∈ repo.filter (IsScenarioVisible K cfg tab), strId (key s) ≠ K.STR_NONE)
    (hfirst : ∀ s, (repo.filter (IsScenarioVisible K cfg tab)).head? = some s → key s ≠ 255) :
    (InitialiseListItems.loop K cfg tab repo)._listItems.map eraseLock =
      headedRuns strId key (repo.filter (IsScenarioVisible K cfg tab)) := by
  unfold InitialiseListItems.loop
  rw [foldl_body_shape K cfg tab strId key repo InitialiseListItems.init hreg
    (fun s hs hv => hstr s (List.mem_filter.2 ⟨hs, by simpa using hv⟩))]
  have h255 : InitialiseListItems.init.currentHeading = 255 := rfl
  rw [h255, appendedRows_eq_headedRuns strId key _ _ hfirst]
  rfl

/-! ## Heading grouping -/

/-- C11 (as stated) fails: in origin mode on tab 0, which is not the Real-parks tab, with no
Mega Park removal, a single visible scenario whose Category is 255 (the initial value of
`currentHeading`) gets no heading row, so the list is not the run under its heading. -/
theorem InitialiseListItems_origin_headings_stray :
    sampleConfig.ScenarioSelectMode = sampleConsts.SCENARIO_SELECT_MODE_ORIGIN ∧
    sampleWindow.selected_tab ≠ (sampleConsts.ScenarioSource_Real : Int) ∧
    InitialiseListItems.removesMegaPark sampleConsts sampleConfig
      (InitialiseListItems.loop sampleConsts sampleConfig sampleWindow.selected_tab
        [strayCategory]) = false ∧
    [strayCategory].filter
        (IsScenarioVisible sampleConsts sampleConfig sampleWindow.selected_tab)
      = [strayCategory] ∧
    (InitialiseListItems sampleConsts sampleConfig [strayCategory] sampleWindow)._listItems
      = [ScenarioListItem.Scenario strayCategory false] ∧
    (InitialiseListItems sampleConsts sampleConfig [strayCategory] sampleWindow)._listItems.map
        eraseLock
      ≠ headedRuns sampleConsts.ScenarioCategoryStringIds (fun s => s.Category)
          [strayCategory] := by
  refine ⟨?_, ?_, ?_, ?_, ?_, ?_⟩ <;> decide

/-- C11 (amended): in origin mode, on every tab other than the Real-parks tab, with no Mega
Park removal, when the first visible scenario's Category is not 255 (the initial value of
`currentHeading`) and the visible categories have string ids other than `STR_NONE`, the list
built by `InitialiseListItems` is, lock flags aside, the visible scenarios split into their
maximal runs of equal Category with exactly one heading row, carrying the category's string
id, in front of each run; on the Real-parks tab the list has no heading row at all. -/
theorem InitialiseListItems_origin_headings (K : Consts) (cfg : Config)
    (repo : List ScenarioIndexEntry) (w : ScenarioSelectWindow)
    (hmode : cfg.ScenarioSelectMode = K.SCENARIO_SELECT_MODE_ORIGIN) :
    (w.selected_tab ≠ (K.ScenarioSource_Real : Int) →
      (∀ s ∈ repo.filter (IsScenarioVisible K cfg w.selected_tab),
        K.ScenarioCategoryStringIds s.Category ≠ K.STR_NONE) →
      (∀ s, (repo.filter (IsScenarioVisible K cfg w.selected_tab)).head? = some s →
        s.Category ≠ 255) →
      InitialiseListItems.removesMegaPark K cfg
        (InitialiseListItems.loop K cfg w.selected_tab repo) = false →
      (InitialiseListItems K cfg repo w)._listItems.map eraseLock =
        headedRuns K.ScenarioCategoryStringIds (fun s => s.Category)
          (repo.filter (IsScenarioVisible K cfg w.selected_tab))) ∧
    (w.selected_tab = (K.ScenarioSource_Real : Int) →
      ∀ item ∈ (InitialiseListItems K cfg repo w)._listItems, isHeading item = false) := by
  have hitems : (InitialiseListItems K cfg repo w)._listItems =
      InitialiseListItems.megaPark K cfg (InitialiseListItems.loop K cfg w.selected_tab repo) :=
    rfl
  rw [hitems]
  constructor
  · intro htab hstr hfirst hkeep
    rw [megaPark_map_eraseLock K cfg _ hkeep]
    exact loop_shape K cfg w.selected_tab K.ScenarioCategoryStringIds (fun s => s.Category)
      repo (fun cur s _ _ => heading_origin K cfg w.selected_tab cur s hmode htab) hstr hfirst
  · intro htab
    apply megaPark_no_headings
    exact loop_no_headings K cfg w.selected_tab repo
      (fun cur s _ _ => heading_origin_real K cfg w.selected_tab cur s hmode htab)

/-- Witness of C11: on tab 0 the beginner scenarios, Mega Park (category 4) and a further
beginner scenario give three runs, the reappearing category under a new heading. -/
theorem InitialiseListItems_origin_headings_witness :
    sampleConfig.ScenarioSelectMode = sampleConsts.SCENARIO_SELECT_MODE_ORIGIN ∧
    (InitialiseListItems sampleConsts sampleConfig
        [forestFrontiers, dynamiteDunes, megaPark, crazyCastle, forestFrontiers]
        sampleWindow)._listItems.map eraseLock =
      [ScenarioListItem.Heading 100, ScenarioListItem.Scenario forestFrontiers false,
       ScenarioListItem.Scenario dynamiteDunes false,
       ScenarioListItem.Heading 104, ScenarioListItem.Scenario megaPark false,
       ScenarioListItem.Heading 100, ScenarioListItem.Scenario forestFrontiers false] :=
  ⟨rfl, by
    rw [(InitialiseListItems_origin_headings sampleConsts sampleConfig
      [forestFrontiers, dynamiteDunes, megaPark, crazyCastle, forestFrontiers] sampleWindow
      rfl).1 (by decide) (by decide) (by decide) (by decide)]
    decide⟩

/-- C12 (as stated) fails: in category mode on the Other tab (tab 4), a single visible
scenario whose Category is 255 (the initial value of `currentHeading`) gets no heading row. -/
theorem InitialiseListItems_category_headings_stray :
    sampleConfigCategory.ScenarioSelectMode ≠ sampleConsts.SCENARIO_SELECT_MODE_ORIGIN ∧
    sampleWindowOther.selected_tab = (sampleConsts.SCENARIO_CATEGORY_OTHER : Int) ∧
    [strayCategory].filter
        (IsScenarioVisible sampleConsts sampleConfigCategory sampleWindowOther.selected_tab)
      = [strayCategory] ∧
    (InitialiseListItems sampleConsts sampleConfigCategory [strayCategory]
        sampleWindowOther)._listItems
      = [ScenarioListItem.Scenario strayCategory false] ∧
    (InitialiseListItems sampleConsts sampleConfigCategory [strayCategory]
        sampleWindowOther)._listItems.map eraseLock
      ≠ headedRuns sampleConsts.ScenarioCategoryStringIds (fun s => s.Category)
          [strayCategory] := by
  refine ⟨?_, ?_, ?_, ?_, ?_⟩ <;> decide

/-- C12 (amended): in category mode, with `EXPERT < REAL < OTHER` among the category
constants, the list built by `InitialiseListItems` is, lock flags aside:
on the Beginner, Challenging and Expert tabs (tabs up to `SCENARIO_CATEGORY_EXPERT`) the
visible scenarios split into their maximal runs of equal SourceGame, each under one heading
row with the origin-game string id (for SourceGame values within the ten entries of
`kScenarioOriginStringIds`, none of them `STR_NONE`); on the Real tab a list without heading
rows; on the Other tab, when the first visible scenario's Category is not 255 (the initial
value of `currentHeading`), the visible scenarios split into their maximal runs of equal
Category, each under one heading row with the string id of that very category, every visible
scenario there having a Category above `SCENARIO_CATEGORY_REAL`, so that the substitution of
`SCENARIO_CATEGORY_OTHER` never applies. -/
theorem InitialiseListItems_category_headings (K : Consts) (cfg : Config)
    (repo : List ScenarioIndexEntry) (w : ScenarioSelectWindow)
    (hmode : cfg.ScenarioSelectMode ≠ K.SCENARIO_SELECT_MODE_ORIGIN)
    (hconst : K.SCENARIO_CATEGORY_EXPERT < K.SCENARIO_CATEGORY_REAL ∧
      K.SCENARIO_CATEGORY_REAL < K.SCENARIO_CATEGORY_OTHER) :
    (w.selected_tab ≤ (K.SCENARIO_CATEGORY_EXPERT : Int) →
      (∀ s ∈ repo.filter (IsScenarioVisible K cfg w.selected_tab), s.SourceGame < 10) →
      (∀ i < 10, kScenarioOriginStringIds K i ≠ K.STR_NONE) →
      (InitialiseListItems K cfg repo w)._listItems.map eraseLock =
        headedRuns (kScenarioOriginStringIds K) (fun s => s.SourceGame)
          (repo.filter (IsScenarioVisible K cfg w.selected_tab))) ∧
    (w.selected_tab = (K.SCENARIO_CATEGORY_REAL : Int) →
      ∀ item ∈ (InitialiseListItems K cfg repo w)._listItems, isHeading item = false) ∧
    (w.selected_tab = (K.SCENARIO_CATEGORY_OTHER : Int) →
      (∀ s ∈ repo.filter (IsScenarioVisible K cfg w.selected_tab),
        s.Category < 256 ∧ K.ScenarioCategoryStringIds s.Category ≠ K.STR_NONE) →
      (∀ s, (repo.filter (IsScenarioVisible K cfg w.selected_tab)).head? = some s →
        s.Category ≠ 255) →
      (InitialiseListItems K cfg repo w)._listItems.map eraseLock =
        headedRuns K.ScenarioCategoryStringIds (fun s => s.Category)
          (repo.filter (IsScenarioVisible K cfg w.selected_tab)) ∧
      ∀ s ∈ repo.filter (IsScenarioVisible K cfg w.selected_tab),
        K.SCENARIO_CATEGORY_REAL < s.Category) := by
  have hl : IsLockingEnabled K cfg w.selected_tab = false := by
    unfold IsLockingEnabled
    rw [if_pos hmode]
  have hitems : (InitialiseListItems K cfg repo w)._listItems =
      (InitialiseListItems.loop K cfg w.selected_tab repo)._listItems := by
    unfold InitialiseListItems
    exact megaPark_of_none K cfg _ (unlocked_loop K cfg w.selected_tab repo hl).1
  rw [hitems]
  refine ⟨?_, ?_, ?_⟩
  · intro htab hsrc hids
    apply loop_shape K cfg w.selected_tab (kScenarioOriginStringIds K) (fun s => s.SourceGame)
      repo (fun cur s _ _ => heading_category_source K cfg w.selected_tab cur s hmode htab)
    · intro s hs
      exact hids _ (hsrc s hs)
    · intro s hs
      have := hsrc s (List.mem_of_mem_head? hs)
      show s.SourceGame ≠ 255
      omega
  · intro htab
    apply loop_no_headings K cfg w.selected_tab repo
    intro cur s _ _
    apply heading_category_none K cfg w.selected_tab cur s hmode
    · rw [htab]; omega
    · rw [htab]; omega
  · intro htab hcat hfirst
    have habove : ∀ s ∈ repo.filter (IsScenarioVisible K cfg w.selected_tab),
        K.SCENARIO_CATEGORY_REAL < s.Category := by
      intro s hs
      have hv := (List.mem_filter.1 hs).2
      have ht := (IsScenarioVisible_iff K cfg w.selected_tab s).1 hv
      unfold tabOf at ht
      rw [if_neg hmode, htab] at ht
      have : min s.Category K.SCENARIO_CATEGORY_OTHER = K.SCENARIO_CATEGORY_OTHER := by
        exact_mod_cast ht
      omega
    refine ⟨?_, habove⟩
    apply loop_shape K cfg w.selected_tab K.ScenarioCategoryStringIds (fun s => s.Category) repo
    · intro cur s hs hv
      have hmem : s ∈ repo.filter (IsScenarioVisible K cfg w.selected_tab) :=
        List.mem_filter.2 ⟨hs, hv⟩
      exact heading_category_other K cfg w.selected_tab cur s hmode
        (by rw [htab]; omega) htab (habove s hmem) (hcat s hmem).1
    · intro s hs
      exact (hcat s hs).2
    · exact hfirst

/-- Witness of C12: in category mode on the Beginner tab the scenarios of RCT1, RCT2 and again
RCT1 give three runs, each under the heading of its origin game; on the Other tab Mega Park
(category 4) stands under the heading of its own category. -/
theorem InitialiseListItems_category_headings_witness :
    sampleConfigCategory.ScenarioSelectMode ≠ sampleConsts.SCENARIO_SELECT_MODE_ORIGIN ∧
    (sampleConsts.SCENARIO_CATEGORY_EXPERT < sampleConsts.SCENARIO_CATEGORY_REAL ∧
      sampleConsts.SCENARIO_CATEGORY_REAL < sampleConsts.SCENARIO_CATEGORY_OTHER) ∧
    (InitialiseListItems sampleConsts sampleConfigCategory
        [forestFrontiers, crazyCastle, megaPark, dynamiteDunes] sampleWindow)._listItems.map
        eraseLock =
      [ScenarioListItem.Heading 200, ScenarioListItem.Scenario forestFrontiers false,
       ScenarioListItem.Heading 203, ScenarioListItem.Scenario crazyCastle false,
       ScenarioListItem.Heading 200, ScenarioListItem.Scenario dynamiteDunes false] ∧
    (InitialiseListItems sampleConsts sampleConfigCategory
        [forestFrontiers, crazyCastle, megaPark, dynamiteDunes]
        sampleWindowOther)._listItems.map eraseLock =
      [ScenarioListItem.Heading 104, ScenarioListItem.Scenario megaPark false] :=
  ⟨by decide, by decide,
    by
      rw [(InitialiseListItems_category_headings sampleConsts sampleConfigCategory
        [forestFrontiers, crazyCastle, megaPark, dynamiteDunes] sampleWindow
        (by decide) (by decide)).1 (by decide) (by decide) (by decide)]
      decide,
    by
      rw [((InitialiseListItems_category_headings sampleConsts sampleConfigCategory
        [forestFrontiers, crazyCastle, megaPark, dynamiteDunes] sampleWindowOther
        (by decide) (by decide)).2.2 (by decide) (by decide) (by decide)).1]
      decide⟩

end ScenarioSelect
